import Mathlib

/-!
Verification of the cec-rs type-safety and conversion layer.

This file shallowly embeds the data model and conversion functions of the
crate (src/types.rs, src/convert.rs, src/lib.rs) and proves properties of
them.  Machine integers are modelled as `Int`/`Nat`; the native C structs
are modelled as plain Lean structures; Rust `Option`/`Result` become
`Option`/`Except`; a Rust panic (e.g. an out-of-bounds slice index or a
failing `unwrap`) is modelled as `Option.none` at the outermost layer of
the function that may panic; `HashSet` is modelled as `Finset`.
-/

set_option maxHeartbeats 1000000
set_option maxRecDepth 40000

namespace CecRs

/-! ## Generic machinery for the `EnumRepr`-generated conversions

Every domain enumeration in src/types.rs is declared with the `EnumRepr`
attribute, which generates `fn repr(self) -> native` (the discriminant
table written in the source) and `fn from_repr(native) -> Option<Self>`
(a match returning the first variant whose discriminant equals the input,
and `None` otherwise).  We model `from_repr` uniformly as a first-match
lookup over the declaration-ordered variant list. -/

def enumFromRepr {E : Type} (variants : List E) (reprFn : E → Int) (n : Int) : Option E :=
  variants.find? (fun v => reprFn v == n)

/-- The contract of one enumeration's encode/decode pair, as stated by the
spec: `to_native` is injective, `from_native` is a left inverse of it on
every defined variant, and `from_native` returns nothing exactly on the
integers that are not discriminants. -/
def RoundTripOk {E : Type} (reprFn : E → Int) (fromReprFn : Int → Option E) : Prop :=
  (∀ v, fromReprFn (reprFn v) = some v) ∧
  (∀ a b, reprFn a = reprFn b → a = b) ∧
  (∀ n, fromReprFn n = none ↔ ∀ v, reprFn v ≠ n)

theorem enumFromRepr_some {E : Type} {variants : List E} {reprFn : E → Int} {n : Int}
    {v : E} (h : enumFromRepr variants reprFn n = some v) : reprFn v = n := by
  have := List.find?_some h
  simpa using this

theorem enumFromRepr_repr {E : Type} {variants : List E} {reprFn : E → Int}
    (hc : ∀ v, v ∈ variants) (hinj : ∀ a b, reprFn a = reprFn b → a = b)
    (v : E) : enumFromRepr variants reprFn (reprFn v) = some v := by
  have hsome : (enumFromRepr variants reprFn (reprFn v)).isSome := by
    rw [enumFromRepr, List.find?_isSome]
    exact ⟨v, hc v, by simp⟩
  obtain ⟨w, hw⟩ := Option.isSome_iff_exists.mp hsome
  have : reprFn w = reprFn v := enumFromRepr_some hw
  rw [hw, hinj _ _ this]

theorem enumFromRepr_eq_none {E : Type} {variants : List E} {reprFn : E → Int}
    (hc : ∀ v, v ∈ variants) (n : Int) :
    enumFromRepr variants reprFn n = none ↔ ∀ v, reprFn v ≠ n := by
  rw [enumFromRepr, List.find?_eq_none]
  constructor
  · intro h v
    have := h v (hc v)
    simpa using this
  · intro h v _
    simpa using h v

theorem roundTripOk_of {E : Type} {variants : List E} {reprFn : E → Int}
    (hc : ∀ v, v ∈ variants) (hinj : ∀ a b, reprFn a = reprFn b → a = b) :
    RoundTripOk reprFn (enumFromRepr variants reprFn) :=
  ⟨enumFromRepr_repr hc hinj, hinj, enumFromRepr_eq_none hc⟩

theorem injective_of_fromRepr {E : Type} {variants : List E} {reprFn : E → Int}
    (h : ∀ v, enumFromRepr variants reprFn (reprFn v) = some v) :
    ∀ a b, reprFn a = reprFn b → a = b := by
  intro a b hab
  have ha := h a
  rw [hab, h b] at ha
  exact (Option.some.inj ha).symm

theorem roundTripOk_of_fromRepr {E : Type} {variants : List E} {reprFn : E → Int}
    (hc : ∀ v, v ∈ variants)
    (h : ∀ v, enumFromRepr variants reprFn (reprFn v) = some v) :
    RoundTripOk reprFn (enumFromRepr variants reprFn) :=
  ⟨h, injective_of_fromRepr h, enumFromRepr_eq_none hc⟩

/-! ## CecLogicalAddress (src/types.rs, `LogicalAddress`)

Discriminants are given in the source both by the `cec_sys` constants and,
explicitly, by the `TryFrom<c_int>` table at src/types.rs:651-678
(-1 = Unknown through 15 = Unregistered). -/

inductive CecLogicalAddress : Type
  | Unknown
  | Tv
  | Recordingdevice1
  | Recordingdevice2
  | Tuner1
  | Playbackdevice1
  | Audiosystem
  | Tuner2
  | Tuner3
  | Playbackdevice2
  | Recordingdevice3
  | Tuner4
  | Playbackdevice3
  | Reserved1
  | Reserved2
  | Freeuse
  | Unregistered
  deriving DecidableEq, Fintype, Repr

namespace CecLogicalAddress

def repr : CecLogicalAddress → Int
  | .Unknown => -1
  | .Tv => 0
  | .Recordingdevice1 => 1
  | .Recordingdevice2 => 2
  | .Tuner1 => 3
  | .Playbackdevice1 => 4
  | .Audiosystem => 5
  | .Tuner2 => 6
  | .Tuner3 => 7
  | .Playbackdevice2 => 8
  | .Recordingdevice3 => 9
  | .Tuner4 => 10
  | .Playbackdevice3 => 11
  | .Reserved1 => 12
  | .Reserved2 => 13
  | .Freeuse => 14
  | .Unregistered => 15

def variants : List CecLogicalAddress :=
  [.Unknown, .Tv, .Recordingdevice1, .Recordingdevice2, .Tuner1, .Playbackdevice1,
   .Audiosystem, .Tuner2, .Tuner3, .Playbackdevice2, .Recordingdevice3, .Tuner4,
   .Playbackdevice3, .Reserved1, .Reserved2, .Freeuse, .Unregistered]

def from_repr : Int → Option CecLogicalAddress :=
  enumFromRepr variants repr

theorem variants_complete_CecLogicalAddress : ∀ v : CecLogicalAddress, v ∈ variants := by decide

theorem repr_injective : ∀ a b : CecLogicalAddress, repr a = repr b → a = b := by decide

theorem from_repr_repr_CecLogicalAddress (v : CecLogicalAddress) : from_repr (repr v) = some v :=
  enumFromRepr_repr variants_complete_CecLogicalAddress repr_injective v

/-- Model of `TryFrom<c_int> for LogicalAddress` (src/types.rs:651-678): the
explicit -1..15 table, any other integer is an error. -/
def tryFromInt (value : Int) : Option CecLogicalAddress :=
  if value = -1 then some .Unknown
  else if value = 0 then some .Tv
  else if value = 1 then some .Recordingdevice1
  else if value = 2 then some .Recordingdevice2
  else if value = 3 then some .Tuner1
  else if value = 4 then some .Playbackdevice1
  else if value = 5 then some .Audiosystem
  else if value = 6 then some .Tuner2
  else if value = 7 then some .Tuner3
  else if value = 8 then some .Playbackdevice2
  else if value = 9 then some .Recordingdevice3
  else if value = 10 then some .Tuner4
  else if value = 11 then some .Playbackdevice3
  else if value = 12 then some .Reserved1
  else if value = 13 then some .Reserved2
  else if value = 14 then some .Freeuse
  else if value = 15 then some .Unregistered
  else none

theorem tryFromInt_repr (v : CecLogicalAddress) : tryFromInt (repr v) = some v := by
  cases v <;> rfl

end CecLogicalAddress

/-! ## CecOpcode (src/types.rs, `Opcode`)

Variant list and order follow src/types.rs:482-557; numeric discriminants
are the `cec_opcode` constants of the native library headers re-exported
by the `cec_sys` dependency (external to this repository). -/

inductive CecOpcode : Type
  | ActiveSource
  | ImageViewOn
  | TextViewOn
  | InactiveSource
  | RequestActiveSource
  | RoutingChange
  | RoutingInformation
  | SetStreamPath
  | Standby
  | RecordOff
  | RecordOn
  | RecordStatus
  | RecordTvScreen
  | ClearAnalogueTimer
  | ClearDigitalTimer
  | ClearExternalTimer
  | SetAnalogueTimer
  | SetDigitalTimer
  | SetExternalTimer
  | SetTimerProgramTitle
  | TimerClearedStatus
  | TimerStatus
  | CecVersion
  | GetCecVersion
  | GivePhysicalAddress
  | GetMenuLanguage
  | ReportPhysicalAddress
  | SetMenuLanguage
  | DeckControl
  | DeckStatus
  | GiveDeckStatus
  | Play
  | GiveTunerDeviceStatus
  | SelectAnalogueService
  | SelectDigitalService
  | TunerDeviceStatus
  | TunerStepDecrement
  | TunerStepIncrement
  | DeviceVendorId
  | GiveDeviceVendorId
  | VendorCommand
  | VendorCommandWithId
  | VendorRemoteButtonDown
  | VendorRemoteButtonUp
  | SetOsdString
  | GiveOsdName
  | SetOsdName
  | MenuRequest
  | MenuStatus
  | UserControlPressed
  | UserControlRelease
  | GiveDevicePowerStatus
  | ReportPowerStatus
  | FeatureAbort
  | Abort
  | GiveAudioStatus
  | GiveSystemAudioModeStatus
  | ReportAudioStatus
  | SetSystemAudioMode
  | SystemAudioModeRequest
  | SystemAudioModeStatus
  | SetAudioRate
  | ReportShortAudioDescriptors
  | RequestShortAudioDescriptors
  | StartArc
  | ReportArcStarted
  | ReportArcEnded
  | RequestArcStart
  | RequestArcEnd
  | EndArc
  | Cdc
  | None
  deriving DecidableEq, Fintype, Repr

namespace CecOpcode

def repr : CecOpcode → Int
  | .ActiveSource => 0x82
  | .ImageViewOn => 0x04
  | .TextViewOn => 0x0D
  | .InactiveSource => 0x9D
  | .RequestActiveSource => 0x85
  | .RoutingChange => 0x80
  | .RoutingInformation => 0x81
  | .SetStreamPath => 0x86
  | .Standby => 0x36
  | .RecordOff => 0x0B
  | .RecordOn => 0x09
  | .RecordStatus => 0x0A
  | .RecordTvScreen => 0x0F
  | .ClearAnalogueTimer => 0x33
  | .ClearDigitalTimer => 0x99
  | .ClearExternalTimer => 0xA1
  | .SetAnalogueTimer => 0x34
  | .SetDigitalTimer => 0x97
  | .SetExternalTimer => 0xA2
  | .SetTimerProgramTitle => 0x67
  | .TimerClearedStatus => 0x43
  | .TimerStatus => 0x35
  | .CecVersion => 0x9E
  | .GetCecVersion => 0x9F
  | .GivePhysicalAddress => 0x83
  | .GetMenuLanguage => 0x91
  | .ReportPhysicalAddress => 0x84
  | .SetMenuLanguage => 0x32
  | .DeckControl => 0x42
  | .DeckStatus => 0x1B
  | .GiveDeckStatus => 0x1A
  | .Play => 0x41
  | .GiveTunerDeviceStatus => 0x08
  | .SelectAnalogueService => 0x92
  | .SelectDigitalService => 0x93
  | .TunerDeviceStatus => 0x07
  | .TunerStepDecrement => 0x06
  | .TunerStepIncrement => 0x05
  | .DeviceVendorId => 0x87
  | .GiveDeviceVendorId => 0x8C
  | .VendorCommand => 0x89
  | .VendorCommandWithId => 0xA0
  | .VendorRemoteButtonDown => 0x8A
  | .VendorRemoteButtonUp => 0x8B
  | .SetOsdString => 0x64
  | .GiveOsdName => 0x46
  | .SetOsdName => 0x47
  | .MenuRequest => 0x8D
  | .MenuStatus => 0x8E
  | .UserControlPressed => 0x44
  | .UserControlRelease => 0x45
  | .GiveDevicePowerStatus => 0x8F
  | .ReportPowerStatus => 0x90
  | .FeatureAbort => 0x00
  | .Abort => 0xFF
  | .GiveAudioStatus => 0x71
  | .GiveSystemAudioModeStatus => 0x7D
  | .ReportAudioStatus => 0x7A
  | .SetSystemAudioMode => 0x72
  | .SystemAudioModeRequest => 0x70
  | .SystemAudioModeStatus => 0x7E
  | .SetAudioRate => 0x9A
  | .ReportShortAudioDescriptors => 0xA3
  | .RequestShortAudioDescriptors => 0xA4
  | .StartArc => 0xC0
  | .ReportArcStarted => 0xC1
  | .ReportArcEnded => 0xC2
  | .RequestArcStart => 0xC3
  | .RequestArcEnd => 0xC4
  | .EndArc => 0xC5
  | .Cdc => 0xF8
  | .None => 0xFD

def variants : List CecOpcode :=
  [.ActiveSource, .ImageViewOn, .TextViewOn, .InactiveSource, .RequestActiveSource,
   .RoutingChange, .RoutingInformation, .SetStreamPath, .Standby, .RecordOff,
   .RecordOn, .RecordStatus, .RecordTvScreen, .ClearAnalogueTimer, .ClearDigitalTimer,
   .ClearExternalTimer, .SetAnalogueTimer, .SetDigitalTimer, .SetExternalTimer,
   .SetTimerProgramTitle, .TimerClearedStatus, .TimerStatus, .CecVersion,
   .GetCecVersion, .GivePhysicalAddress, .GetMenuLanguage, .ReportPhysicalAddress,
   .SetMenuLanguage, .DeckControl, .DeckStatus, .GiveDeckStatus, .Play,
   .GiveTunerDeviceStatus, .SelectAnalogueService, .SelectDigitalService,
   .TunerDeviceStatus, .TunerStepDecrement, .TunerStepIncrement, .DeviceVendorId,
   .GiveDeviceVendorId, .VendorCommand, .VendorCommandWithId, .VendorRemoteButtonDown,
   .VendorRemoteButtonUp, .SetOsdString, .GiveOsdName, .SetOsdName, .MenuRequest,
   .MenuStatus, .UserControlPressed, .UserControlRelease, .GiveDevicePowerStatus,
   .ReportPowerStatus, .FeatureAbort, .Abort, .GiveAudioStatus,
   .GiveSystemAudioModeStatus, .ReportAudioStatus, .SetSystemAudioMode,
   .SystemAudioModeRequest, .SystemAudioModeStatus, .SetAudioRate,
   .ReportShortAudioDescriptors, .RequestShortAudioDescriptors, .StartArc,
   .ReportArcStarted, .ReportArcEnded, .RequestArcStart, .RequestArcEnd, .EndArc,
   .Cdc, .None]

def from_repr : Int → Option CecOpcode :=
  enumFromRepr variants repr

theorem variants_complete_CecOpcode : ∀ v : CecOpcode, v ∈ variants := by decide

theorem from_repr_repr_CecOpcode : ∀ v : CecOpcode, from_repr (repr v) = some v := by decide

end CecOpcode

/-! ## CecUserControlCode (src/types.rs, `UserControlCode`) -/

inductive CecUserControlCode : Type
  | Select
  | Up
  | Down
  | Left
  | Right
  | RightUp
  | RightDown
  | LeftUp
  | LeftDown
  | RootMenu
  | SetupMenu
  | ContentsMenu
  | FavoriteMenu
  | Exit
  | TopMenu
  | DvdMenu
  | NumberEntryMode
  | Number11
  | Number12
  | Number0
  | Number1
  | Number2
  | Number3
  | Number4
  | Number5
  | Number6
  | Number7
  | Number8
  | Number9
  | Dot
  | Enter
  | Clear
  | NextFavorite
  | ChannelUp
  | ChannelDown
  | PreviousChannel
  | SoundSelect
  | InputSelect
  | DisplayInformation
  | Help
  | PageUp
  | PageDown
  | Power
  | VolumeUp
  | VolumeDown
  | Mute
  | Play
  | Stop
  | Pause
  | Record
  | Rewind
  | FastForward
  | Eject
  | Forward
  | Backward
  | StopRecord
  | PauseRecord
  | Angle
  | SubPicture
  | VideoOnDemand
  | ElectronicProgramGuide
  | TimerProgramming
  | InitialConfiguration
  | SelectBroadcastType
  | SelectSoundPresentation
  | PlayFunction
  | PausePlayFunction
  | RecordFunction
  | PauseRecordFunction
  | StopFunction
  | MuteFunction
  | RestoreVolumeFunction
  | TuneFunction
  | SelectMediaFunction
  | SelectAvInputFunction
  | SelectAudioInputFunction
  | PowerToggleFunction
  | PowerOffFunction
  | PowerOnFunction
  | F1Blue
  | F2Red
  | F3Green
  | F4Yellow
  | F5
  | Data
  | AnReturn
  | AnChannelsList
  | Unknown
  deriving DecidableEq, Fintype, Repr

namespace CecUserControlCode

def repr : CecUserControlCode → Int
  | .Select => 0x00
  | .Up => 0x01
  | .Down => 0x02
  | .Left => 0x03
  | .Right => 0x04
  | .RightUp => 0x05
  | .RightDown => 0x06
  | .LeftUp => 0x07
  | .LeftDown => 0x08
  | .RootMenu => 0x09
  | .SetupMenu => 0x0A
  | .ContentsMenu => 0x0B
  | .FavoriteMenu => 0x0C
  | .Exit => 0x0D
  | .TopMenu => 0x10
  | .DvdMenu => 0x11
  | .NumberEntryMode => 0x1D
  | .Number11 => 0x1E
  | .Number12 => 0x1F
  | .Number0 => 0x20
  | .Number1 => 0x21
  | .Number2 => 0x22
  | .Number3 => 0x23
  | .Number4 => 0x24
  | .Number5 => 0x25
  | .Number6 => 0x26
  | .Number7 => 0x27
  | .Number8 => 0x28
  | .Number9 => 0x29
  | .Dot => 0x2A
  | .Enter => 0x2B
  | .Clear => 0x2C
  | .NextFavorite => 0x2F
  | .ChannelUp => 0x30
  | .ChannelDown => 0x31
  | .PreviousChannel => 0x32
  | .SoundSelect => 0x33
  | .InputSelect => 0x34
  | .DisplayInformation => 0x35
  | .Help => 0x36
  | .PageUp => 0x37
  | .PageDown => 0x38
  | .Power => 0x40
  | .VolumeUp => 0x41
  | .VolumeDown => 0x42
  | .Mute => 0x43
  | .Play => 0x44
  | .Stop => 0x45
  | .Pause => 0x46
  | .Record => 0x47
  | .Rewind => 0x48
  | .FastForward => 0x49
  | .Eject => 0x4A
  | .Forward => 0x4B
  | .Backward => 0x4C
  | .StopRecord => 0x4D
  | .PauseRecord => 0x4E
  | .Angle => 0x50
  | .SubPicture => 0x51
  | .VideoOnDemand => 0x52
  | .ElectronicProgramGuide => 0x53
  | .TimerProgramming => 0x54
  | .InitialConfiguration => 0x55
  | .SelectBroadcastType => 0x56
  | .SelectSoundPresentation => 0x57
  | .PlayFunction => 0x60
  | .PausePlayFunction => 0x61
  | .RecordFunction => 0x62
  | .PauseRecordFunction => 0x63
  | .StopFunction => 0x64
  | .MuteFunction => 0x65
  | .RestoreVolumeFunction => 0x66
  | .TuneFunction => 0x67
  | .SelectMediaFunction => 0x68
  | .SelectAvInputFunction => 0x69
  | .SelectAudioInputFunction => 0x6A
  | .PowerToggleFunction => 0x6B
  | .PowerOffFunction => 0x6C
  | .PowerOnFunction => 0x6D
  | .F1Blue => 0x71
  | .F2Red => 0x72
  | .F3Green => 0x73
  | .F4Yellow => 0x74
  | .F5 => 0x75
  | .Data => 0x76
  | .AnReturn => 0x91
  | .AnChannelsList => 0x96
  | .Unknown => 0xFF

def variants : List CecUserControlCode :=
  [.Select, .Up, .Down, .Left, .Right, .RightUp, .RightDown, .LeftUp, .LeftDown,
   .RootMenu, .SetupMenu, .ContentsMenu, .FavoriteMenu, .Exit, .TopMenu, .DvdMenu,
   .NumberEntryMode, .Number11, .Number12, .Number0, .Number1, .Number2, .Number3,
   .Number4, .Number5, .Number6, .Number7, .Number8, .Number9, .Dot, .Enter,
   .Clear, .NextFavorite, .ChannelUp, .ChannelDown, .PreviousChannel, .SoundSelect,
   .InputSelect, .DisplayInformation, .Help, .PageUp, .PageDown, .Power, .VolumeUp,
   .VolumeDown, .Mute, .Play, .Stop, .Pause, .Record, .Rewind, .FastForward,
   .Eject, .Forward, .Backward, .StopRecord, .PauseRecord, .Angle, .SubPicture,
   .VideoOnDemand, .ElectronicProgramGuide, .TimerProgramming,
   .InitialConfiguration, .SelectBroadcastType, .SelectSoundPresentation,
   .PlayFunction, .PausePlayFunction, .RecordFunction, .PauseRecordFunction,
   .StopFunction, .MuteFunction, .RestoreVolumeFunction, .TuneFunction,
   .SelectMediaFunction, .SelectAvInputFunction, .SelectAudioInputFunction,
   .PowerToggleFunction, .PowerOffFunction, .PowerOnFunction, .F1Blue, .F2Red,
   .F3Green, .F4Yellow, .F5, .Data, .AnReturn, .AnChannelsList, .Unknown]

def from_repr : Int → Option CecUserControlCode :=
  enumFromRepr variants repr

theorem variants_complete_CecUserControlCode : ∀ v : CecUserControlCode, v ∈ variants := by decide

theorem from_repr_repr_CecUserControlCode : ∀ v : CecUserControlCode, from_repr (repr v) = some v := by decide

end CecUserControlCode

/-! ## CecPowerStatus (src/types.rs, `PowerStatus`) -/

inductive CecPowerStatus : Type
  | On
  | Standby
  | InTransitionStandbyToOn
  | InTransitionOnToStandby
  | Unknown
  deriving DecidableEq, Fintype, Repr

namespace CecPowerStatus

def repr : CecPowerStatus → Int
  | .On => 0x00
  | .Standby => 0x01
  | .InTransitionStandbyToOn => 0x02
  | .InTransitionOnToStandby => 0x03
  | .Unknown => 0x99

def variants : List CecPowerStatus :=
  [.On, .Standby, .InTransitionStandbyToOn, .InTransitionOnToStandby, .Unknown]

def from_repr : Int → Option CecPowerStatus :=
  enumFromRepr variants repr

theorem variants_complete_CecPowerStatus : ∀ v : CecPowerStatus, v ∈ variants := by decide

theorem from_repr_repr_CecPowerStatus : ∀ v : CecPowerStatus, from_repr (repr v) = some v := by decide

end CecPowerStatus

/-! ## CecLogLevel (src/types.rs, `LogLevel`) -/

inductive CecLogLevel : Type
  | Error
  | Warning
  | Notice
  | Traffic
  | Debug
  | All
  deriving DecidableEq, Fintype, Repr

namespace CecLogLevel

def repr : CecLogLevel → Int
  | .Error => 1
  | .Warning => 2
  | .Notice => 4
  | .Traffic => 8
  | .Debug => 16
  | .All => 31

def variants : List CecLogLevel := [.Error, .Warning, .Notice, .Traffic, .Debug, .All]

def from_repr : Int → Option CecLogLevel :=
  enumFromRepr variants repr

theorem variants_complete_CecLogLevel : ∀ v : CecLogLevel, v ∈ variants := by decide

theorem from_repr_repr_CecLogLevel : ∀ v : CecLogLevel, from_repr (repr v) = some v := by decide

end CecLogLevel

/-! ## CecDeviceType (src/types.rs, `DeviceType`) -/

inductive CecDeviceType : Type
  | Tv
  | RecordingDevice
  | Reserved
  | Tuner
  | PlaybackDevice
  | AudioSystem
  deriving DecidableEq, Fintype, Repr

namespace CecDeviceType

def repr : CecDeviceType → Int
  | .Tv => 0
  | .RecordingDevice => 1
  | .Reserved => 2
  | .Tuner => 3
  | .PlaybackDevice => 4
  | .AudioSystem => 5

def variants : List CecDeviceType :=
  [.Tv, .RecordingDevice, .Reserved, .Tuner, .PlaybackDevice, .AudioSystem]

def from_repr : Int → Option CecDeviceType :=
  enumFromRepr variants repr

theorem variants_complete_CecDeviceType : ∀ v : CecDeviceType, v ∈ variants := by decide

theorem from_repr_repr_CecDeviceType : ∀ v : CecDeviceType, from_repr (repr v) = some v := by decide

end CecDeviceType

/-! ## CecAdapterType (src/types.rs, `AdapterType`) -/

inductive CecAdapterType : Type
  | Unknown
  | P8External
  | P8Daughterboard
  | Rpi
  | Tda995x
  | Exynos
  | Linux
  | Aocec
  | Imx
  deriving DecidableEq, Fintype, Repr

namespace CecAdapterType

def repr : CecAdapterType → Int
  | .Unknown => 0
  | .P8External => 1
  | .P8Daughterboard => 2
  | .Rpi => 0x100
  | .Tda995x => 0x200
  | .Exynos => 0x300
  | .Linux => 0x400
  | .Aocec => 0x500
  | .Imx => 0x600

def variants : List CecAdapterType :=
  [.Unknown, .P8External, .P8Daughterboard, .Rpi, .Tda995x, .Exynos, .Linux,
   .Aocec, .Imx]

def from_repr : Int → Option CecAdapterType :=
  enumFromRepr variants repr

theorem variants_complete_CecAdapterType : ∀ v : CecAdapterType, v ∈ variants := by decide

theorem from_repr_repr_CecAdapterType : ∀ v : CecAdapterType, from_repr (repr v) = some v := by decide

end CecAdapterType

/-! ## CecVendorId (src/types.rs, `VendorId`) -/

inductive CecVendorId : Type
  | Toshiba
  | Samsung
  | Denon
  | Marantz
  | Loewe
  | Onkyo
  | Medion
  | Toshiba2
  | Apple
  | PulseEight
  | HarmanKardon2
  | Google
  | Akai
  | Aoc
  | Panasonic
  | Philips
  | Daewoo
  | Yamaha
  | Grundig
  | Pioneer
  | Lg
  | Sharp
  | Sony
  | Broadcom
  | Sharp2
  | Vizio
  | Benq
  | HarmanKardon
  | Unknown
  deriving DecidableEq, Fintype, Repr

namespace CecVendorId

def repr : CecVendorId → Int
  | .Toshiba => 0x000039
  | .Samsung => 0x0000F0
  | .Denon => 0x0005CD
  | .Marantz => 0x000678
  | .Loewe => 0x000982
  | .Onkyo => 0x0009B0
  | .Medion => 0x000CB8
  | .Toshiba2 => 0x000CE7
  | .Apple => 0x0010FA
  | .PulseEight => 0x001582
  | .HarmanKardon2 => 0x001950
  | .Google => 0x001A11
  | .Akai => 0x0020C7
  | .Aoc => 0x002467
  | .Panasonic => 0x008045
  | .Philips => 0x00903E
  | .Daewoo => 0x009053
  | .Yamaha => 0x00A0DE
  | .Grundig => 0x00D0D5
  | .Pioneer => 0x00E036
  | .Lg => 0x00E091
  | .Sharp => 0x08001F
  | .Sony => 0x080046
  | .Broadcom => 0x18C086
  | .Sharp2 => 0x534850
  | .Vizio => 0x6B746D
  | .Benq => 0x8065E9
  | .HarmanKardon => 0x9C645E
  | .Unknown => 0

def variants : List CecVendorId :=
  [.Toshiba, .Samsung, .Denon, .Marantz, .Loewe, .Onkyo, .Medion, .Toshiba2,
   .Apple, .PulseEight, .HarmanKardon2, .Google, .Akai, .Aoc, .Panasonic,
   .Philips, .Daewoo, .Yamaha, .Grundig, .Pioneer, .Lg, .Sharp, .Sony,
   .Broadcom, .Sharp2, .Vizio, .Benq, .HarmanKardon, .Unknown]

def from_repr : Int → Option CecVendorId :=
  enumFromRepr variants repr

theorem variants_complete_CecVendorId : ∀ v : CecVendorId, v ∈ variants := by decide

theorem from_repr_repr_CecVendorId : ∀ v : CecVendorId, from_repr (repr v) = some v := by decide

end CecVendorId

/-! ## CecAlert (src/types.rs, `Alert`) -/

inductive CecAlert : Type
  | ServiceDevice
  | ConnectionLost
  | PermissionError
  | PortBusy
  | PhysicalAddressError
  | TvPollFailed
  deriving DecidableEq, Fintype, Repr

namespace CecAlert

def repr : CecAlert → Int
  | .ServiceDevice => 0
  | .ConnectionLost => 1
  | .PermissionError => 2
  | .PortBusy => 3
  | .PhysicalAddressError => 4
  | .TvPollFailed => 5

def variants : List CecAlert :=
  [.ServiceDevice, .ConnectionLost, .PermissionError, .PortBusy,
   .PhysicalAddressError, .TvPollFailed]

def from_repr : Int → Option CecAlert :=
  enumFromRepr variants repr

theorem variants_complete_CecAlert : ∀ v : CecAlert, v ∈ variants := by decide

theorem from_repr_repr_CecAlert : ∀ v : CecAlert, from_repr (repr v) = some v := by decide

end CecAlert

/-! ## Smaller protocol-detail enumerations (src/types.rs) -/

inductive AbortReason : Type
  | UnrecognizedOpcode
  | NotInCorrectModeToRespond
  | CannotProvideSource
  | InvalidOperand
  | Refused
  deriving DecidableEq, Fintype, Repr

namespace AbortReason

def repr : AbortReason → Int
  | .UnrecognizedOpcode => 0
  | .NotInCorrectModeToRespond => 1
  | .CannotProvideSource => 2
  | .InvalidOperand => 3
  | .Refused => 4

def variants : List AbortReason :=
  [.UnrecognizedOpcode, .NotInCorrectModeToRespond, .CannotProvideSource,
   .InvalidOperand, .Refused]

def from_repr : Int → Option AbortReason :=
  enumFromRepr variants repr

theorem variants_complete_AbortReason : ∀ v : AbortReason, v ∈ variants := by decide

theorem from_repr_repr_AbortReason : ∀ v : AbortReason, from_repr (repr v) = some v := by decide

end AbortReason

inductive AudioRate : Type
  | RateControlOff
  | StandardRate100
  | FastRateMax101
  | SlowRateMin99
  | StandardRate1000
  | FastRateMax1001
  | SlowRateMin999
  deriving DecidableEq, Fintype, Repr

namespace AudioRate

def repr : AudioRate → Int
  | .RateControlOff => 0
  | .StandardRate100 => 1
  | .FastRateMax101 => 2
  | .SlowRateMin99 => 3
  | .StandardRate1000 => 4
  | .FastRateMax1001 => 5
  | .SlowRateMin999 => 6

def variants : List AudioRate :=
  [.RateControlOff, .StandardRate100, .FastRateMax101, .SlowRateMin99,
   .StandardRate1000, .FastRateMax1001, .SlowRateMin999]

def from_repr : Int → Option AudioRate :=
  enumFromRepr variants repr

theorem variants_complete_AudioRate : ∀ v : AudioRate, v ∈ variants := by decide

theorem from_repr_repr_AudioRate : ∀ v : AudioRate, from_repr (repr v) = some v := by decide

end AudioRate

inductive AudioStatus : Type
  | MuteStatusMask
  | VolumeStatusMask
  | VolumeMin
  | VolumeMax
  deriving DecidableEq, Fintype, Repr

namespace AudioStatus

def repr : AudioStatus → Int
  | .MuteStatusMask => 0x80
  | .VolumeStatusMask => 0x7F
  | .VolumeMin => 0x00
  | .VolumeMax => 0x64

def variants : List AudioStatus :=
  [.MuteStatusMask, .VolumeStatusMask, .VolumeMin, .VolumeMax]

def from_repr : Int → Option AudioStatus :=
  enumFromRepr variants repr

theorem variants_complete_AudioStatus : ∀ v : AudioStatus, v ∈ variants := by decide

theorem from_repr_repr_AudioStatus : ∀ v : AudioStatus, from_repr (repr v) = some v := by decide

end AudioStatus

inductive DeckControlMode : Type
  | SkipForwardWind
  | SkipReverseRewind
  | Stop
  | Eject
  deriving DecidableEq, Fintype, Repr

namespace DeckControlMode

def repr : DeckControlMode → Int
  | .SkipForwardWind => 1
  | .SkipReverseRewind => 2
  | .Stop => 3
  | .Eject => 4

def variants : List DeckControlMode :=
  [.SkipForwardWind, .SkipReverseRewind, .Stop, .Eject]

def from_repr : Int → Option DeckControlMode :=
  enumFromRepr variants repr

theorem variants_complete_DeckControlMode : ∀ v : DeckControlMode, v ∈ variants := by decide

theorem from_repr_repr_DeckControlMode : ∀ v : DeckControlMode, from_repr (repr v) = some v := by decide

end DeckControlMode

inductive DeckInfo : Type
  | Play
  | Record
  | PlayReverse
  | Still
  | Slow
  | SlowReverse
  | FastForward
  | FastReverse
  | NoMedia
  | Stop
  | SkipForwardWind
  | SkipReverseRewind
  | IndexSearchForward
  | IndexSearchReverse
  | OtherStatus
  | OtherStatusLg
  deriving DecidableEq, Fintype, Repr

namespace DeckInfo

def repr : DeckInfo → Int
  | .Play => 0x11
  | .Record => 0x12
  | .PlayReverse => 0x13
  | .Still => 0x14
  | .Slow => 0x15
  | .SlowReverse => 0x16
  | .FastForward => 0x17
  | .FastReverse => 0x18
  | .NoMedia => 0x19
  | .Stop => 0x1A
  | .SkipForwardWind => 0x1B
  | .SkipReverseRewind => 0x1C
  | .IndexSearchForward => 0x1D
  | .IndexSearchReverse => 0x1E
  | .OtherStatus => 0x1F
  | .OtherStatusLg => 0x20

def variants : List DeckInfo :=
  [.Play, .Record, .PlayReverse, .Still, .Slow, .SlowReverse, .FastForward,
   .FastReverse, .NoMedia, .Stop, .SkipForwardWind, .SkipReverseRewind,
   .IndexSearchForward, .IndexSearchReverse, .OtherStatus, .OtherStatusLg]

def from_repr : Int → Option DeckInfo :=
  enumFromRepr variants repr

theorem variants_complete_DeckInfo : ∀ v : DeckInfo, v ∈ variants := by decide

theorem from_repr_repr_DeckInfo : ∀ v : DeckInfo, from_repr (repr v) = some v := by decide

end DeckInfo

inductive DisplayControl : Type
  | DisplayForDefaultTime
  | DisplayUntilCleared
  | ClearPreviousMessage
  | ReservedForFutureUse
  deriving DecidableEq, Fintype, Repr

namespace DisplayControl

def repr : DisplayControl → Int
  | .DisplayForDefaultTime => 0x00
  | .DisplayUntilCleared => 0x40
  | .ClearPreviousMessage => 0x80
  | .ReservedForFutureUse => 0xC0

def variants : List DisplayControl :=
  [.DisplayForDefaultTime, .DisplayUntilCleared, .ClearPreviousMessage,
   .ReservedForFutureUse]

def from_repr : Int → Option DisplayControl :=
  enumFromRepr variants repr

theorem variants_complete_DisplayControl : ∀ v : DisplayControl, v ∈ variants := by decide

theorem from_repr_repr_DisplayControl : ∀ v : DisplayControl, from_repr (repr v) = some v := by decide

end DisplayControl

inductive MenuRequestType : Type
  | Activate
  | Deactivate
  | Query
  deriving DecidableEq, Fintype, Repr

namespace MenuRequestType

def repr : MenuRequestType → Int
  | .Activate => 0
  | .Deactivate => 1
  | .Query => 2

def variants : List MenuRequestType := [.Activate, .Deactivate, .Query]

def from_repr : Int → Option MenuRequestType :=
  enumFromRepr variants repr

theorem variants_complete_MenuRequestType : ∀ v : MenuRequestType, v ∈ variants := by decide

theorem from_repr_repr_MenuRequestType : ∀ v : MenuRequestType, from_repr (repr v) = some v := by decide

end MenuRequestType

inductive MenuState : Type
  | Activated
  | Deactivated
  deriving DecidableEq, Fintype, Repr

namespace MenuState

def repr : MenuState → Int
  | .Activated => 0
  | .Deactivated => 1

def variants : List MenuState := [.Activated, .Deactivated]

def from_repr : Int → Option MenuState :=
  enumFromRepr variants repr

theorem variants_complete_MenuState : ∀ v : MenuState, v ∈ variants := by decide

theorem from_repr_repr_MenuState : ∀ v : MenuState, from_repr (repr v) = some v := by decide

end MenuState

inductive PlayMode : Type
  | PlayForward
  | PlayReverse
  | PlayStill
  | FastForwardMinSpeed
  | FastForwardMediumSpeed
  | FastForwardMaxSpeed
  | FastReverseMinSpeed
  | FastReverseMediumSpeed
  | FastReverseMaxSpeed
  | SlowForwardMinSpeed
  | SlowForwardMediumSpeed
  | SlowForwardMaxSpeed
  | SlowReverseMinSpeed
  | SlowReverseMediumSpeed
  | SlowReverseMaxSpeed
  deriving DecidableEq, Fintype, Repr

namespace PlayMode

def repr : PlayMode → Int
  | .PlayForward => 0x24
  | .PlayReverse => 0x20
  | .PlayStill => 0x25
  | .FastForwardMinSpeed => 0x05
  | .FastForwardMediumSpeed => 0x06
  | .FastForwardMaxSpeed => 0x07
  | .FastReverseMinSpeed => 0x09
  | .FastReverseMediumSpeed => 0x0A
  | .FastReverseMaxSpeed => 0x0B
  | .SlowForwardMinSpeed => 0x15
  | .SlowForwardMediumSpeed => 0x16
  | .SlowForwardMaxSpeed => 0x17
  | .SlowReverseMinSpeed => 0x19
  | .SlowReverseMediumSpeed => 0x1A
  | .SlowReverseMaxSpeed => 0x1B

def variants : List PlayMode :=
  [.PlayForward, .PlayReverse, .PlayStill, .FastForwardMinSpeed,
   .FastForwardMediumSpeed, .FastForwardMaxSpeed, .FastReverseMinSpeed,
   .FastReverseMediumSpeed, .FastReverseMaxSpeed, .SlowForwardMinSpeed,
   .SlowForwardMediumSpeed, .SlowForwardMaxSpeed, .SlowReverseMinSpeed,
   .SlowReverseMediumSpeed, .SlowReverseMaxSpeed]

def from_repr : Int → Option PlayMode :=
  enumFromRepr variants repr

theorem variants_complete_PlayMode : ∀ v : PlayMode, v ∈ variants := by decide

theorem from_repr_repr_PlayMode : ∀ v : PlayMode, from_repr (repr v) = some v := by decide

end PlayMode

inductive RecordSourceType : Type
  | OwnSource
  | DigitalService
  | AnalogueService
  | ExternalPlus
  | ExternalPhysicalAddress
  deriving DecidableEq, Fintype, Repr

namespace RecordSourceType

def repr : RecordSourceType → Int
  | .OwnSource => 1
  | .DigitalService => 2
  | .AnalogueService => 3
  | .ExternalPlus => 4
  | .ExternalPhysicalAddress => 5

def variants : List RecordSourceType :=
  [.OwnSource, .DigitalService, .AnalogueService, .ExternalPlus,
   .ExternalPhysicalAddress]

def from_repr : Int → Option RecordSourceType :=
  enumFromRepr variants repr

theorem variants_complete_RecordSourceType : ∀ v : RecordSourceType, v ∈ variants := by decide

theorem from_repr_repr_RecordSourceType : ∀ v : RecordSourceType, from_repr (repr v) = some v := by decide

end RecordSourceType

inductive RecordStatusInfo : Type
  | RecordingCurrentlySelectedSource
  | RecordingDigitalService
  | RecordingAnalogueService
  | RecordingExternalInput
  | NoRecordingUnableToRecordDigitalService
  | NoRecordingUnableToRecordAnalogueService
  | NoRecordingUnableToSelectRequiredService
  | NoRecordingInvalidExternalPlugNumber
  | NoRecordingInvalidExternalAddress
  | NoRecordingCaSystemNotSupported
  | NoRecordingNoOrInsufficientEntitlements
  | NoRecordingNotAllowedToCopySource
  | NoRecordingNoFurtherCopiesAllowed
  | NoRecordingNoMedia
  | NoRecordingPlaying
  | NoRecordingAlreadyRecording
  | NoRecordingMediaProtected
  | NoRecordingNoSourceSignal
  | NoRecordingMediaProblem
  | NoRecordingNotEnoughSpaceAvailable
  | NoRecordingParentalLockOn
  | RecordingTerminatedNormally
  | RecordingHasAlreadyTerminated
  | NoRecordingOtherReason
  deriving DecidableEq, Fintype, Repr

namespace RecordStatusInfo

def repr : RecordStatusInfo → Int
  | .RecordingCurrentlySelectedSource => 0x01
  | .RecordingDigitalService => 0x02
  | .RecordingAnalogueService => 0x03
  | .RecordingExternalInput => 0x04
  | .NoRecordingUnableToRecordDigitalService => 0x05
  | .NoRecordingUnableToRecordAnalogueService => 0x06
  | .NoRecordingUnableToSelectRequiredService => 0x07
  | .NoRecordingInvalidExternalPlugNumber => 0x09
  | .NoRecordingInvalidExternalAddress => 0x0A
  | .NoRecordingCaSystemNotSupported => 0x0B
  | .NoRecordingNoOrInsufficientEntitlements => 0x0C
  | .NoRecordingNotAllowedToCopySource => 0x0D
  | .NoRecordingNoFurtherCopiesAllowed => 0x0E
  | .NoRecordingNoMedia => 0x10
  | .NoRecordingPlaying => 0x11
  | .NoRecordingAlreadyRecording => 0x12
  | .NoRecordingMediaProtected => 0x13
  | .NoRecordingNoSourceSignal => 0x14
  | .NoRecordingMediaProblem => 0x15
  | .NoRecordingNotEnoughSpaceAvailable => 0x16
  | .NoRecordingParentalLockOn => 0x17
  | .RecordingTerminatedNormally => 0x1A
  | .RecordingHasAlreadyTerminated => 0x1B
  | .NoRecordingOtherReason => 0x1F

def variants : List RecordStatusInfo :=
  [.RecordingCurrentlySelectedSource, .RecordingDigitalService,
   .RecordingAnalogueService, .RecordingExternalInput,
   .NoRecordingUnableToRecordDigitalService,
   .NoRecordingUnableToRecordAnalogueService,
   .NoRecordingUnableToSelectRequiredService,
   .NoRecordingInvalidExternalPlugNumber, .NoRecordingInvalidExternalAddress,
   .NoRecordingCaSystemNotSupported, .NoRecordingNoOrInsufficientEntitlements,
   .NoRecordingNotAllowedToCopySource, .NoRecordingNoFurtherCopiesAllowed,
   .NoRecordingNoMedia, .NoRecordingPlaying, .NoRecordingAlreadyRecording,
   .NoRecordingMediaProtected, .NoRecordingNoSourceSignal,
   .NoRecordingMediaProblem, .NoRecordingNotEnoughSpaceAvailable,
   .NoRecordingParentalLockOn, .RecordingTerminatedNormally,
   .RecordingHasAlreadyTerminated, .NoRecordingOtherReason]

def from_repr : Int → Option RecordStatusInfo :=
  enumFromRepr variants repr

theorem variants_complete_RecordStatusInfo : ∀ v : RecordStatusInfo, v ∈ variants := by decide

theorem from_repr_repr_RecordStatusInfo : ∀ v : RecordStatusInfo, from_repr (repr v) = some v := by decide

end RecordStatusInfo

inductive RecordingSequence : Type
  | Sunday
  | Monday
  | Tuesday
  | Wednesday
  | Thursday
  | Friday
  | Saturday
  | OnceOnly
  deriving DecidableEq, Fintype, Repr

namespace RecordingSequence

def repr : RecordingSequence → Int
  | .Sunday => 0x01
  | .Monday => 0x02
  | .Tuesday => 0x04
  | .Wednesday => 0x08
  | .Thursday => 0x10
  | .Friday => 0x20
  | .Saturday => 0x40
  | .OnceOnly => 0x00

def variants : List RecordingSequence :=
  [.Sunday, .Monday, .Tuesday, .Wednesday, .Thursday, .Friday, .Saturday,
   .OnceOnly]

def from_repr : Int → Option RecordingSequence :=
  enumFromRepr variants repr

theorem variants_complete_RecordingSequence : ∀ v : RecordingSequence, v ∈ variants := by decide

theorem from_repr_repr_RecordingSequence : ∀ v : RecordingSequence, from_repr (repr v) = some v := by decide

end RecordingSequence

inductive TimerClearedStatusData : Type
  | NotClearedRecording
  | NotClearedNoMatching
  | NotClearedNoInf0Available
  | Cleared
  deriving DecidableEq, Fintype, Repr

namespace TimerClearedStatusData

def repr : TimerClearedStatusData → Int
  | .NotClearedRecording => 0x00
  | .NotClearedNoMatching => 0x01
  | .NotClearedNoInf0Available => 0x02
  | .Cleared => 0x80

def variants : List TimerClearedStatusData :=
  [.NotClearedRecording, .NotClearedNoMatching, .NotClearedNoInf0Available,
   .Cleared]

def from_repr : Int → Option TimerClearedStatusData :=
  enumFromRepr variants repr

theorem variants_complete_TimerClearedStatusData : ∀ v : TimerClearedStatusData, v ∈ variants := by decide

theorem from_repr_repr_TimerClearedStatusData : ∀ v : TimerClearedStatusData, from_repr (repr v) = some v := by
  decide

end TimerClearedStatusData

inductive TimerOverlapWarning : Type
  | NoOverlap
  | TimerBlocksOverlap
  deriving DecidableEq, Fintype, Repr

namespace TimerOverlapWarning

def repr : TimerOverlapWarning → Int
  | .NoOverlap => 0
  | .TimerBlocksOverlap => 1

def variants : List TimerOverlapWarning := [.NoOverlap, .TimerBlocksOverlap]

def from_repr : Int → Option TimerOverlapWarning :=
  enumFromRepr variants repr

theorem variants_complete_TimerOverlapWarning : ∀ v : TimerOverlapWarning, v ∈ variants := by decide

theorem from_repr_repr_TimerOverlapWarning : ∀ v : TimerOverlapWarning, from_repr (repr v) = some v := by decide

end TimerOverlapWarning

inductive BroadcastSystem : Type
  | PalBG
  | SecamL1
  | PalM
  | NtscM
  | PalI
  | SecamDk
  | SecamBG
  | SecamL2
  | PalDk
  | OtherSystem
  deriving DecidableEq, Fintype, Repr

namespace BroadcastSystem

def repr : BroadcastSystem → Int
  | .PalBG => 0
  | .SecamL1 => 1
  | .PalM => 2
  | .NtscM => 3
  | .PalI => 4
  | .SecamDk => 5
  | .SecamBG => 6
  | .SecamL2 => 7
  | .PalDk => 8
  | .OtherSystem => 31

def variants : List BroadcastSystem :=
  [.PalBG, .SecamL1, .PalM, .NtscM, .PalI, .SecamDk, .SecamBG, .SecamL2,
   .PalDk, .OtherSystem]

def from_repr : Int → Option BroadcastSystem :=
  enumFromRepr variants repr

theorem variants_complete_BroadcastSystem : ∀ v : BroadcastSystem, v ∈ variants := by decide

theorem from_repr_repr_BroadcastSystem : ∀ v : BroadcastSystem, from_repr (repr v) = some v := by decide

end BroadcastSystem

inductive TunerDisplayInfo : Type
  | DisplayingDigitalTuner
  | NotDisplayingTuner
  | DisplayingAnalogueTuner
  deriving DecidableEq, Fintype, Repr

namespace TunerDisplayInfo

def repr : TunerDisplayInfo → Int
  | .DisplayingDigitalTuner => 0x72
  | .NotDisplayingTuner => 0x73
  | .DisplayingAnalogueTuner => 0x74

def variants : List TunerDisplayInfo :=
  [.DisplayingDigitalTuner, .NotDisplayingTuner, .DisplayingAnalogueTuner]

def from_repr : Int → Option TunerDisplayInfo :=
  enumFromRepr variants repr

theorem variants_complete_TunerDisplayInfo : ∀ v : TunerDisplayInfo, v ∈ variants := by decide

theorem from_repr_repr_TunerDisplayInfo : ∀ v : TunerDisplayInfo, from_repr (repr v) = some v := by decide

end TunerDisplayInfo

/-! ## Known / registered logical addresses (src/lib.rs:33-68) -/

/-- CecLogicalAddress which does not allow the Unknown variant
(src/lib.rs:33-44). -/
abbrev KnownCecLogicalAddress :=
  {a : CecLogicalAddress // a ≠ CecLogicalAddress.Unknown}

/-- Model of `KnownCecLogicalAddress::new` (src/lib.rs:38-43). -/
def KnownCecLogicalAddress.new (address : CecLogicalAddress) :
    Option KnownCecLogicalAddress :=
  if h : address = CecLogicalAddress.Unknown then none else some ⟨address, h⟩

/-- CecLogicalAddress which does not allow the Unknown and Unregistered
variants (src/lib.rs:46-57). -/
abbrev KnownAndRegisteredCecLogicalAddress :=
  {a : CecLogicalAddress //
    a ≠ CecLogicalAddress.Unknown ∧ a ≠ CecLogicalAddress.Unregistered}

/-- Model of `KnownAndRegisteredCecLogicalAddress::new` (src/lib.rs:50-56). -/
def KnownAndRegisteredCecLogicalAddress.new (address : CecLogicalAddress) :
    Option KnownAndRegisteredCecLogicalAddress :=
  if h : address = CecLogicalAddress.Unknown ∨
         address = CecLogicalAddress.Unregistered then none
  else some ⟨address, not_or.mp h⟩

/-! ## CecDatapacket (src/lib.rs:70-71, src/convert.rs:32-53) -/

/-- Domain data packet: an `ArrayVec<u8, 64>`, modelled as a byte list of
length at most 64. -/
abbrev CecDatapacket := {l : List Nat // l.length ≤ 64}

/-- Native `cec_datapacket`: a fixed 64-byte buffer plus an occupied-length
scalar.  The scalar is a `u8` in C, so values 0-255 can appear; the model
uses `Nat`, which only widens the statements quantifying over it. -/
structure cec_datapacket where
  data : Fin 64 → Nat
  size : Nat
  deriving DecidableEq

/-- Model of `From<CecDatapacket> for cec_datapacket` (src/convert.rs:32-41):
a zeroed 64-byte buffer whose first `len` slots receive the packet's bytes,
with `size` set to the packet length. -/
def CecDatapacket.toNative (p : CecDatapacket) : cec_datapacket where
  data := fun i => if h : (i : Nat) < p.val.length then p.val.get ⟨i, h⟩ else 0
  size := p.val.length

/-- Model of `From<cec_datapacket> for CecDatapacket` (src/convert.rs:43-53):
copies exactly the first `size` bytes of the native buffer.  For
`size > 64` the source's slice expression `&datapacket.data[..end]`
panics, which is modelled as `none`. -/
def CecDatapacket.fromNative (p : cec_datapacket) : Option CecDatapacket :=
  if h : p.size ≤ 64 then
    some ⟨((List.finRange 64).map p.data).take p.size,
      le_trans (List.length_take_le _ _) h⟩
  else none

/-! ## CecCommand (src/lib.rs:73-130) -/

/-- Native `cec_command` struct (C layout: enum fields and 0/1 flags are
plain integers). -/
structure cec_command where
  initiator : Int
  destination : Int
  ack : Int
  eom : Int
  opcode : Int
  parameters : cec_datapacket
  opcode_set : Int
  transmit_timeout : Int
  deriving DecidableEq

/-- Error type of `TryFrom<cec_command> for CecCommand` (src/lib.rs:93-101). -/
inductive TryFromCecCommandError : Type
  | UnknownOpcode
  | UnknownInitiator
  | UnknownDestination
  deriving DecidableEq, Repr

/-- Domain command frame (src/lib.rs:73-91).  The `Duration` transmit
timeout is modelled as a number of milliseconds. -/
structure CecCommand where
  initiator : CecLogicalAddress
  destination : CecLogicalAddress
  ack : Bool
  eom : Bool
  opcode : CecOpcode
  parameters : CecDatapacket
  opcode_set : Bool
  transmit_timeout : Nat
  deriving DecidableEq

/-- Model of `TryFrom<cec_command> for CecCommand` (src/lib.rs:103-130):
opcode, initiator and destination are decoded fallibly in that order; the
parameter packet conversion may panic (modelled as the outer `none`); a
negative native timeout is clamped to zero, a non-negative one is taken as
milliseconds. -/
def CecCommand.tryFromNative (command : cec_command) :
    Option (Except TryFromCecCommandError CecCommand) :=
  match CecOpcode.from_repr command.opcode with
  | none => some (.error .UnknownOpcode)
  | some opcode =>
    match CecLogicalAddress.from_repr command.initiator with
    | none => some (.error .UnknownInitiator)
    | some initiator =>
      match CecLogicalAddress.from_repr command.destination with
      | none => some (.error .UnknownDestination)
      | some destination =>
        match CecDatapacket.fromNative command.parameters with
        | none => none
        | some parameters =>
          some (.ok
            { initiator := initiator
              destination := destination
              ack := command.ack != 0
              eom := command.eom != 0
              opcode := opcode
              parameters := parameters
              opcode_set := command.opcode_set != 0
              transmit_timeout :=
                if command.transmit_timeout < 0 then 0
                else command.transmit_timeout.toNat })

/-! ## CecLogicalAddresses (src/lib.rs:191-282, src/convert.rs:70-85) -/

/-- Error type of `TryFrom<cec_logical_addresses>` (src/lib.rs:241-247). -/
inductive TryFromCecLogicalAddressesError : Type
  | UnknownPrimaryAddress
  | InvalidPrimaryAddress
  deriving DecidableEq, Repr

/-- Collection of logical addresses with one primary address
(src/lib.rs:191-196).  The `HashSet` of secondary addresses is modelled as
a `Finset`. -/
structure CecLogicalAddresses where
  primary : KnownCecLogicalAddress
  addresses : Finset KnownAndRegisteredCecLogicalAddress
  deriving DecidableEq

/-- Native `cec_logical_addresses`: a primary scalar plus a 16-slot
presence mask indexed by discriminant. -/
structure cec_logical_addresses where
  primary : Int
  addresses : Fin 16 → Int
  deriving DecidableEq

/-- Model of `Default for CecLogicalAddresses` (src/lib.rs:275-282):
primary Unregistered, no secondary addresses. -/
def CecLogicalAddresses.defaultValue : CecLogicalAddresses where
  primary := ⟨CecLogicalAddress.Unregistered, by decide⟩
  addresses := ∅

/-- Model of `CecLogicalAddresses::with_only_primary` (src/lib.rs:199-204). -/
def CecLogicalAddresses.withOnlyPrimary (primary : KnownCecLogicalAddress) :
    CecLogicalAddresses where
  primary := primary
  addresses := ∅

/-- Model of `CecLogicalAddresses::with_primary_and_addresses`
(src/lib.rs:215-238): `none` when the primary is Unregistered and the
candidate set is non-empty, the default (empty) collection when the
primary is Unregistered and the candidates are empty, and otherwise the
candidate set with the primary inserted. -/
def CecLogicalAddresses.withPrimaryAndAddresses
    (primary : KnownCecLogicalAddress)
    (addresses : Finset KnownAndRegisteredCecLogicalAddress) :
    Option CecLogicalAddresses :=
  if h : primary.val = CecLogicalAddress.Unregistered then
    if addresses.Nonempty then none
    else some CecLogicalAddresses.defaultValue
  else
    some { primary := primary
           addresses := insert ⟨primary.val, primary.prop, h⟩ addresses }

/-- Model of `From<CecLogicalAddresses> for cec_logical_addresses`
(src/convert.rs:70-85).  The source loop writes `1` into the mask slot at
each secondary address's discriminant, starting from an all-zero mask; the
resulting array is the indicator function of the set of discriminants. -/
def CecLogicalAddresses.toNative (x : CecLogicalAddresses) :
    cec_logical_addresses where
  primary := x.primary.val.repr
  addresses := fun i =>
    if ((i : Nat) : Int) ∈ x.addresses.image (fun a => a.val.repr) then 1 else 0

/-- Model of `TryFrom<cec_logical_addresses> for CecLogicalAddresses`
(src/lib.rs:249-273): the primary scalar is decoded fallibly; every
non-zero mask slot contributes its index's address when that address is
known and registered (index 15, Unregistered, is discarded by
`KnownAndRegisteredCecLogicalAddress::new`).  The source's
`CecLogicalAddress::try_from(i).unwrap()`, which cannot panic for indices
0..16, is modelled by `Option.bind`. -/
def CecLogicalAddresses.fromNative (addresses : cec_logical_addresses) :
    Except TryFromCecLogicalAddressesError CecLogicalAddresses :=
  match CecLogicalAddress.from_repr addresses.primary with
  | none => .error .InvalidPrimaryAddress
  | some p =>
    match KnownCecLogicalAddress.new p with
    | none => .error .UnknownPrimaryAddress
    | some primary =>
      .ok { primary := primary
            addresses :=
              ((List.finRange 16).filterMap (fun i =>
                if addresses.addresses i ≠ 0 then
                  (CecLogicalAddress.tryFromInt ((i : Nat) : Int)).bind
                    KnownAndRegisteredCecLogicalAddress.new
                else none)).toFinset }

/-! ## Connection lifecycle (src/lib.rs:509-836)

`CecConnectionCfg::open` allocates the native handle with
`libcec_initialise`, resolves the transport port (from the configured port
string, or by scanning adapters when autodetect is on), opens the
transport, and registers the callback table.  Every early `return Err(..)`
drops the already-constructed `CecConnection`, whose `Drop` implementation
unconditionally runs `libcec_close` then `libcec_destroy`; on the success
path the same two calls run when the returned connection is eventually
released.  The model records the ordered list of native-library calls made
over the whole lifetime and abstracts the native library's replies into an
oracle. -/

/-- Error type `CecConnectionResultError` (src/lib.rs:511-527).  `FfiError`
stands for the `NulError`-carrying variant. -/
inductive CecConnectionResultError : Type
  | LibInitFailed
  | NoAdapterFound
  | AdapterOpenFailed
  | CallbackRegistrationFailed
  | TransmitFailed
  | PortMissing
  | FfiError
  deriving DecidableEq, Repr

/-- One call made by `open`/`Drop` into the native library. -/
inductive NativeEvent : Type
  | initialise (ok : Bool)
  | detectAdapters (ret : Int)
  | openTransport (port : List Nat) (ok : Bool)
  | setCallbacks (ok : Bool)
  | close
  | destroy
  deriving DecidableEq, Repr

/-- Replies of the native library during one `open` attempt: whether
`libcec_initialise` returns a non-null handle, the return value of
`libcec_detect_adapters`, the `strComName` bytes (as `c_char` values) the
scan writes into the first adapter descriptor when it reports at least one
adapter, and the success flags of `libcec_open` and of the
callback-registration call. -/
structure NativeOracle where
  initOk : Bool
  detectRet : Int
  adapterName : List Int
  openOk : Bool
  callbacksOk : Bool

/-- The fields of `CecConnectionCfg` that drive `open`'s control flow: the
optional autodetect flag and the optional port string, the latter as its
byte sequence (which may contain interior zero bytes, making the
`CString` construction fail). -/
structure OpenCfg where
  autodetect : Option Bool
  port : Option (List Nat)

/-- Model of `CecConnectionCfg::detect_port` (src/lib.rs:803-826): the
descriptor buffer is zero-initialised; a negative scan return value is
reported as `NoAdapterFound`; otherwise the first descriptor's name bytes
(still all zero when the scan reported zero adapters) are narrowed to `u8`
(`flat_map(u8::try_from)`, dropping values outside the `u8` range) and
zero bytes are filtered out, so the subsequent `CString` construction
cannot fail. -/
def detectPortModel (o : NativeOracle) :
    Except CecConnectionResultError (List Nat) :=
  if o.detectRet < 0 then .error .NoAdapterFound
  else
    let name := if 1 ≤ o.detectRet then o.adapterName else List.replicate 1024 0
    .ok ((name.filterMap (fun c =>
      if 0 ≤ c ∧ c ≤ 255 then some c.toNat else none)).filter (fun b => b != 0))

/-- Transport-endpoint resolution step of `open` (src/lib.rs:769-778):
with autodetect on, the adapter scan is consulted; otherwise the
caller-supplied port is converted to a `CString` (failing on an interior
zero byte), and a missing port is the `PortMissing` error.  Returns the
resolution result together with the native calls it made. -/
def resolvePortModel (cfg : OpenCfg) (o : NativeOracle) :
    Except CecConnectionResultError (List Nat) × List NativeEvent :=
  if cfg.autodetect.getD false then
    (detectPortModel o, [NativeEvent.detectAdapters o.detectRet])
  else
    match cfg.port with
    | some bytes => (if 0 ∈ bytes then .error .FfiError else .ok bytes, [])
    | none => (.error .PortMissing, [])

/-- Model of `CecConnectionCfg::open` (src/lib.rs:746-801) up to, but not
including, the close-then-destroy teardown.  Returns `open`'s result
together with the ordered call trace made during `open` itself:
`libcec_initialise`, then (depending on the configuration) the adapter
scan or the port validation, then the transport open, then the callback
registration — stopping at the first failure. -/
def openCore (cfg : OpenCfg) (o : NativeOracle) :
    Except CecConnectionResultError Unit × List NativeEvent :=
  match o.initOk with
  | false => (.error .LibInitFailed, [NativeEvent.initialise o.initOk])
  | true =>
    match resolvePortModel cfg o with
    | (.error e, ev1) => (.error e, NativeEvent.initialise o.initOk :: ev1)
    | (.ok port, ev1) =>
      match o.openOk with
      | false =>
        (.error .AdapterOpenFailed,
          NativeEvent.initialise o.initOk ::
            (ev1 ++ [NativeEvent.openTransport port o.openOk]))
      | true =>
        match o.callbacksOk with
        | false =>
          (.error .CallbackRegistrationFailed,
            NativeEvent.initialise o.initOk ::
              (ev1 ++ [NativeEvent.openTransport port o.openOk,
                       NativeEvent.setCallbacks o.callbacksOk]))
        | true =>
          (.ok (),
            NativeEvent.initialise o.initOk ::
              (ev1 ++ [NativeEvent.openTransport port o.openOk,
                       NativeEvent.setCallbacks o.callbacksOk]))

/-- Model of `CecConnectionCfg::open` composed with the eventual release of
the connection (`Drop for CecConnection`, src/lib.rs:829-836): the
`CecConnection` is constructed right after `libcec_initialise` and before
the null check, so every early `return Err(..)` drops it, and the success
path drops it at the caller's eventual release — in all cases the `Drop`
implementation unconditionally runs `libcec_close` then `libcec_destroy`,
which the model appends to the trace. -/
def openAndRelease (cfg : OpenCfg) (o : NativeOracle) :
    Except CecConnectionResultError Unit × List NativeEvent :=
  ((openCore cfg o).1,
   (openCore cfg o).2 ++ [NativeEvent.close, NativeEvent.destroy])

/-- Number of successful `libcec_initialise` calls (handle allocations) in
a trace. -/
def allocCount (tr : List NativeEvent) : Nat :=
  tr.countP (fun e => match e with | .initialise true => true | _ => false)

/-- Number of `libcec_close` calls in a trace. -/
def closeCount (tr : List NativeEvent) : Nat :=
  tr.countP (fun e => match e with | .close => true | _ => false)

/-- Number of `libcec_destroy` calls (handle destructions) in a trace. -/
def destroyCount (tr : List NativeEvent) : Nat :=
  tr.countP (fun e => match e with | .destroy => true | _ => false)

/-- Number of `libcec_open` (transport open) attempts in a trace. -/
def openTransportCount (tr : List NativeEvent) : Nat :=
  tr.countP (fun e => match e with | .openTransport _ _ => true | _ => false)

/-- The trace finishes with the close-then-destroy teardown sequence. -/
def EndsWithCloseDestroy (tr : List NativeEvent) : Prop :=
  ∃ pre, tr = pre ++ [NativeEvent.close, NativeEvent.destroy]

/-! ## Raw query decodes (src/lib.rs:569-587) -/

/-- Model of `CecConnection::get_active_source` (src/lib.rs:569-572) as a
function of the raw value returned by `libcec_get_active_source`: the raw
value is decoded with `from_repr` and then `unwrap`ped; the panic of the
`unwrap` on an unknown discriminant is modelled as `none`. -/
def getActiveSourceModel (raw : Int) : Option CecLogicalAddress :=
  CecLogicalAddress.from_repr raw

/-- Model of `CecConnection::get_device_power_status` (src/lib.rs:582-587),
with the same `from_repr(..).unwrap()` shape as `getActiveSourceModel`. -/
def getDevicePowerStatusModel (raw : Int) : Option CecPowerStatus :=
  CecPowerStatus.from_repr raw

/-! ## Concrete example values used by witnesses -/

/-- A native command frame with a negative transmit timeout. -/
def exampleNativeCommand : cec_command where
  initiator := 4
  destination := 8
  ack := 0
  eom := 1
  opcode := 0x36
  parameters := { data := fun _ => 0, size := 0 }
  opcode_set := 1
  transmit_timeout := -500

/-- The domain command `exampleNativeCommand` decodes to. -/
def exampleDecodedCommand : CecCommand where
  initiator := CecLogicalAddress.Playbackdevice1
  destination := CecLogicalAddress.Playbackdevice2
  ack := false
  eom := true
  opcode := CecOpcode.Standby
  parameters := ⟨[], by simp⟩
  opcode_set := true
  transmit_timeout := 0

/-- The collection built from primary Playbackdevice1 and secondaries
{Playbackdevice2, Audiosystem}: the secondary set additionally holds the
primary. -/
def exampleCollection : CecLogicalAddresses where
  primary := ⟨CecLogicalAddress.Playbackdevice1, by decide⟩
  addresses :=
    {⟨CecLogicalAddress.Playbackdevice1, by decide⟩,
     ⟨CecLogicalAddress.Playbackdevice2, by decide⟩,
     ⟨CecLogicalAddress.Audiosystem, by decide⟩}

/-! ## Shared helper lemmas -/

theorem KnownCecLogicalAddress.new_of_ne {a : CecLogicalAddress}
    (h : a ≠ CecLogicalAddress.Unknown) :
    KnownCecLogicalAddress.new a = some ⟨a, h⟩ :=
  dif_neg h

theorem KnownAndRegisteredCecLogicalAddress.new_of_ne_registered {a : CecLogicalAddress}
    (h1 : a ≠ CecLogicalAddress.Unknown) (h2 : a ≠ CecLogicalAddress.Unregistered) :
    KnownAndRegisteredCecLogicalAddress.new a = some ⟨a, h1, h2⟩ := by
  unfold KnownAndRegisteredCecLogicalAddress.new
  rw [dif_neg (not_or_intro h1 h2)]

theorem KnownAndRegisteredCecLogicalAddress.new_eq_some {a : CecLogicalAddress}
    {r : KnownAndRegisteredCecLogicalAddress}
    (h : KnownAndRegisteredCecLogicalAddress.new a = some r) : r.val = a := by
  unfold KnownAndRegisteredCecLogicalAddress.new at h
  split at h
  · exact absurd h (by simp)
  · exact congrArg Subtype.val (Option.some.inj h).symm

theorem CecLogicalAddress.tryFromInt_fin16 :
    ∀ (i : Fin 16) (c : CecLogicalAddress),
      CecLogicalAddress.tryFromInt ((i : Nat) : Int) = some c →
      CecLogicalAddress.repr c = ((i : Nat) : Int) := by
  decide

theorem registered_repr_bounds :
    ∀ v : CecLogicalAddress, v ≠ CecLogicalAddress.Unknown →
      v ≠ CecLogicalAddress.Unregistered →
      0 ≤ CecLogicalAddress.repr v ∧ CecLogicalAddress.repr v < 15 := by
  decide

/-- Membership in the secondary set built by
`CecLogicalAddresses.fromNative`: an address is in the decoded set exactly
when the mask slot at its discriminant is non-zero. -/
theorem mem_fromNative_addresses (native : cec_logical_addresses)
    (a : KnownAndRegisteredCecLogicalAddress) :
    a ∈ ((List.finRange 16).filterMap (fun i =>
        if native.addresses i ≠ 0 then
          (CecLogicalAddress.tryFromInt ((i : Nat) : Int)).bind
            KnownAndRegisteredCecLogicalAddress.new
        else none)).toFinset ↔
      ∃ i : Fin 16, native.addresses i ≠ 0 ∧ ((i : Nat) : Int) = a.val.repr := by
  rw [List.mem_toFinset, List.mem_filterMap]
  constructor
  · rintro ⟨i, -, hi⟩
    have hmask : native.addresses i ≠ 0 := by
      intro hzero
      rw [if_neg (fun hne => hne hzero)] at hi
      exact Option.noConfusion hi
    refine ⟨i, hmask, ?_⟩
    rw [if_pos hmask] at hi
    obtain ⟨c, hc, hnew⟩ := Option.bind_eq_some.mp hi
    rw [KnownAndRegisteredCecLogicalAddress.new_eq_some hnew]
    exact (CecLogicalAddress.tryFromInt_fin16 i c hc).symm
  · rintro ⟨i, hmask, hrepr⟩
    refine ⟨i, List.mem_finRange i, ?_⟩
    rw [if_pos hmask, hrepr, CecLogicalAddress.tryFromInt_repr a.val, Option.some_bind,
      KnownAndRegisteredCecLogicalAddress.new_of_ne_registered a.prop.1 a.prop.2]

/-! ## Claim theorems -/

/-- C6: for every embedded domain enumeration of the type-mapping layer
(logical address, opcode, user-control code, power status, log level,
device type, adapter type, vendor id, alert, and the smaller
protocol-detail enumerations), `to_native` is injective within the
enumeration, `from_native (to_native v) = some v` for every defined
variant `v`, and `from_native` returns nothing exactly on the integers
that are not one of the enumerated discriminants. -/
theorem enum_round_trips :
    RoundTripOk CecLogicalAddress.repr CecLogicalAddress.from_repr ∧
    RoundTripOk CecOpcode.repr CecOpcode.from_repr ∧
    RoundTripOk CecUserControlCode.repr CecUserControlCode.from_repr ∧
    RoundTripOk CecPowerStatus.repr CecPowerStatus.from_repr ∧
    RoundTripOk CecLogLevel.repr CecLogLevel.from_repr ∧
    RoundTripOk CecDeviceType.repr CecDeviceType.from_repr ∧
    RoundTripOk CecAdapterType.repr CecAdapterType.from_repr ∧
    RoundTripOk CecVendorId.repr CecVendorId.from_repr ∧
    RoundTripOk CecAlert.repr CecAlert.from_repr ∧
    RoundTripOk AbortReason.repr AbortReason.from_repr ∧
    RoundTripOk AudioRate.repr AudioRate.from_repr ∧
    RoundTripOk AudioStatus.repr AudioStatus.from_repr ∧
    RoundTripOk DeckControlMode.repr DeckControlMode.from_repr ∧
    RoundTripOk DeckInfo.repr DeckInfo.from_repr ∧
    RoundTripOk DisplayControl.repr DisplayControl.from_repr ∧
    RoundTripOk MenuRequestType.repr MenuRequestType.from_repr ∧
    RoundTripOk MenuState.repr MenuState.from_repr ∧
    RoundTripOk PlayMode.repr PlayMode.from_repr ∧
    RoundTripOk RecordSourceType.repr RecordSourceType.from_repr ∧
    RoundTripOk RecordStatusInfo.repr RecordStatusInfo.from_repr ∧
    RoundTripOk RecordingSequence.repr RecordingSequence.from_repr ∧
    RoundTripOk TimerClearedStatusData.repr TimerClearedStatusData.from_repr ∧
    RoundTripOk TimerOverlapWarning.repr TimerOverlapWarning.from_repr ∧
    RoundTripOk BroadcastSystem.repr BroadcastSystem.from_repr ∧
    RoundTripOk TunerDisplayInfo.repr TunerDisplayInfo.from_repr :=
  ⟨roundTripOk_of_fromRepr CecLogicalAddress.variants_complete_CecLogicalAddress
      CecLogicalAddress.from_repr_repr_CecLogicalAddress,
   roundTripOk_of_fromRepr CecOpcode.variants_complete_CecOpcode CecOpcode.from_repr_repr_CecOpcode,
   roundTripOk_of_fromRepr CecUserControlCode.variants_complete_CecUserControlCode
      CecUserControlCode.from_repr_repr_CecUserControlCode,
   roundTripOk_of_fromRepr CecPowerStatus.variants_complete_CecPowerStatus
      CecPowerStatus.from_repr_repr_CecPowerStatus,
   roundTripOk_of_fromRepr CecLogLevel.variants_complete_CecLogLevel CecLogLevel.from_repr_repr_CecLogLevel,
   roundTripOk_of_fromRepr CecDeviceType.variants_complete_CecDeviceType
      CecDeviceType.from_repr_repr_CecDeviceType,
   roundTripOk_of_fromRepr CecAdapterType.variants_complete_CecAdapterType
      CecAdapterType.from_repr_repr_CecAdapterType,
   roundTripOk_of_fromRepr CecVendorId.variants_complete_CecVendorId CecVendorId.from_repr_repr_CecVendorId,
   roundTripOk_of_fromRepr CecAlert.variants_complete_CecAlert CecAlert.from_repr_repr_CecAlert,
   roundTripOk_of_fromRepr AbortReason.variants_complete_AbortReason AbortReason.from_repr_repr_AbortReason,
   roundTripOk_of_fromRepr AudioRate.variants_complete_AudioRate AudioRate.from_repr_repr_AudioRate,
   roundTripOk_of_fromRepr AudioStatus.variants_complete_AudioStatus AudioStatus.from_repr_repr_AudioStatus,
   roundTripOk_of_fromRepr DeckControlMode.variants_complete_DeckControlMode
      DeckControlMode.from_repr_repr_DeckControlMode,
   roundTripOk_of_fromRepr DeckInfo.variants_complete_DeckInfo DeckInfo.from_repr_repr_DeckInfo,
   roundTripOk_of_fromRepr DisplayControl.variants_complete_DisplayControl
      DisplayControl.from_repr_repr_DisplayControl,
   roundTripOk_of_fromRepr MenuRequestType.variants_complete_MenuRequestType
      MenuRequestType.from_repr_repr_MenuRequestType,
   roundTripOk_of_fromRepr MenuState.variants_complete_MenuState MenuState.from_repr_repr_MenuState,
   roundTripOk_of_fromRepr PlayMode.variants_complete_PlayMode PlayMode.from_repr_repr_PlayMode,
   roundTripOk_of_fromRepr RecordSourceType.variants_complete_RecordSourceType
      RecordSourceType.from_repr_repr_RecordSourceType,
   roundTripOk_of_fromRepr RecordStatusInfo.variants_complete_RecordStatusInfo
      RecordStatusInfo.from_repr_repr_RecordStatusInfo,
   roundTripOk_of_fromRepr RecordingSequence.variants_complete_RecordingSequence
      RecordingSequence.from_repr_repr_RecordingSequence,
   roundTripOk_of_fromRepr TimerClearedStatusData.variants_complete_TimerClearedStatusData
      TimerClearedStatusData.from_repr_repr_TimerClearedStatusData,
   roundTripOk_of_fromRepr TimerOverlapWarning.variants_complete_TimerOverlapWarning
      TimerOverlapWarning.from_repr_repr_TimerOverlapWarning,
   roundTripOk_of_fromRepr BroadcastSystem.variants_complete_BroadcastSystem
      BroadcastSystem.from_repr_repr_BroadcastSystem,
   roundTripOk_of_fromRepr TunerDisplayInfo.variants_complete_TunerDisplayInfo
      TunerDisplayInfo.from_repr_repr_TunerDisplayInfo⟩

/-- Witness for C6: the user-control-code round trip at a defined variant,
and decode failure at 666, which is not a defined keycode discriminant. -/
theorem enum_round_trips_witness :
    CecUserControlCode.from_repr (CecUserControlCode.repr CecUserControlCode.Up) =
      some CecUserControlCode.Up ∧
    CecUserControlCode.from_repr 666 = none :=
  ⟨enum_round_trips.2.2.1.1 CecUserControlCode.Up,
   (enum_round_trips.2.2.1.2.2 666).mpr (by decide)⟩

/-- C9 (counterexample): contrary to the claim, the active-source and
device-power-status queries are not total in the native return value: the
source `unwrap`s the `from_repr` decode, so a raw active source of 16 and
a raw power status of 4 (neither a defined discriminant) make the decode
come back empty and the `unwrap` panic, modelled here as `none`. -/
theorem get_queries_panic_counterexample :
    getActiveSourceModel 16 = none ∧ getDevicePowerStatusModel 4 = none :=
  ⟨rfl, rfl⟩

/-- C9 (amended): `get_active_source` and `get_device_power_status` return
the decoded variant whenever the raw native value is a defined
discriminant, and panic (modelled as `none`) exactly on the raw values
that are not defined discriminants — the decode failure is not surfaced
as a typed result. -/
theorem get_queries_decode_exactly_known :
    (∀ raw v, getActiveSourceModel raw = some v → CecLogicalAddress.repr v = raw) ∧
    (∀ raw, getActiveSourceModel raw = none ↔
      ∀ v, CecLogicalAddress.repr v ≠ raw) ∧
    (∀ raw v, getDevicePowerStatusModel raw = some v →
      CecPowerStatus.repr v = raw) ∧
    (∀ raw, getDevicePowerStatusModel raw = none ↔
      ∀ v, CecPowerStatus.repr v ≠ raw) :=
  ⟨fun _ _ h => enumFromRepr_some h,
   fun raw => enumFromRepr_eq_none CecLogicalAddress.variants_complete_CecLogicalAddress raw,
   fun _ _ h => enumFromRepr_some h,
   fun raw => enumFromRepr_eq_none CecPowerStatus.variants_complete_CecPowerStatus raw⟩

/-- Witness for the amended C9 theorem at concrete raw values. -/
theorem get_queries_decode_exactly_known_witness :
    CecLogicalAddress.repr CecLogicalAddress.Audiosystem = 5 ∧
    CecPowerStatus.repr CecPowerStatus.Standby = 1 :=
  ⟨get_queries_decode_exactly_known.1 5 CecLogicalAddress.Audiosystem rfl,
   get_queries_decode_exactly_known.2.2.1 1 CecPowerStatus.Standby rfl⟩

/-- C5: `with_primary_and_addresses` returns nothing exactly when the
primary is Unregistered and the candidate set is non-empty; for an
Unregistered primary and empty candidates it returns the collection with
the same primary and an empty secondary set; in every other case it
returns the same primary with the candidate set plus the primary. -/
theorem with_primary_and_addresses_spec :
    ∀ (primary : KnownCecLogicalAddress)
      (addresses : Finset KnownAndRegisteredCecLogicalAddress),
      (CecLogicalAddresses.withPrimaryAndAddresses primary addresses = none ↔
        primary.val = CecLogicalAddress.Unregistered ∧ addresses ≠ ∅) ∧
      (primary.val = CecLogicalAddress.Unregistered → addresses = ∅ →
        ∃ r, CecLogicalAddresses.withPrimaryAndAddresses primary addresses =
            some r ∧ r.primary = primary ∧ r.addresses = ∅) ∧
      (∀ h : primary.val ≠ CecLogicalAddress.Unregistered,
        ∃ r, CecLogicalAddresses.withPrimaryAndAddresses primary addresses =
            some r ∧ r.primary = primary ∧
          r.addresses = insert ⟨primary.val, primary.prop, h⟩ addresses) := by
  intro primary addresses
  unfold CecLogicalAddresses.withPrimaryAndAddresses
  by_cases h : primary.val = CecLogicalAddress.Unregistered
  · rw [dif_pos h]
    by_cases hne : addresses.Nonempty
    · rw [if_pos hne]
      refine ⟨by simp [h, Finset.nonempty_iff_ne_empty.mp hne], ?_, ?_⟩
      · intro _ hempty
        exact absurd hempty (Finset.nonempty_iff_ne_empty.mp hne)
      · intro hcontra
        exact absurd h hcontra
    · rw [if_neg hne]
      have hempty : addresses = ∅ := Finset.not_nonempty_iff_eq_empty.mp hne
      refine ⟨by simp [hempty], ?_, ?_⟩
      · intro _ _
        refine ⟨CecLogicalAddresses.defaultValue, rfl, ?_, rfl⟩
        exact Subtype.ext (by simp [CecLogicalAddresses.defaultValue, h])
      · intro hcontra
        exact absurd h hcontra
  · rw [dif_neg h]
    refine ⟨by simp [h], ?_, ?_⟩
    · intro hcontra
      exact absurd hcontra h
    · intro h'
      exact ⟨_, rfl, rfl, rfl⟩

/-- Witness for C5: the Unregistered/non-empty combination is rejected, and
a registered primary gets unioned into the secondary set. -/
theorem with_primary_and_addresses_spec_witness :
    CecLogicalAddresses.withPrimaryAndAddresses
        ⟨CecLogicalAddress.Unregistered, by decide⟩
        {⟨CecLogicalAddress.Audiosystem, by decide⟩} = none ∧
    (∃ r, CecLogicalAddresses.withPrimaryAndAddresses
          ⟨CecLogicalAddress.Playbackdevice1, by decide⟩
          {⟨CecLogicalAddress.Audiosystem, by decide⟩} = some r ∧
      r.primary = ⟨CecLogicalAddress.Playbackdevice1, by decide⟩ ∧
      r.addresses = insert ⟨CecLogicalAddress.Playbackdevice1, by decide⟩
        {⟨CecLogicalAddress.Audiosystem, by decide⟩}) :=
  ⟨(with_primary_and_addresses_spec _ _).1.mpr ⟨rfl, by decide⟩,
   (with_primary_and_addresses_spec _ _).2.2 (by decide)⟩

/-- C8: converting a domain data packet of any length 0-64 to the native
64-byte-buffer-plus-length form and back yields the identical packet
(identical length and byte-for-byte identical contents). -/
theorem datapacket_round_trip :
    ∀ p : CecDatapacket, CecDatapacket.fromNative (CecDatapacket.toNative p) = some p := by
  intro p
  have h64 : p.val.length ≤ 64 := p.prop
  unfold CecDatapacket.fromNative CecDatapacket.toNative
  rw [dif_pos (by simpa using h64)]
  refine congrArg some (Subtype.ext ?_)
  apply List.ext_getElem
  · simp only [List.length_take, List.length_map, List.length_finRange]
    omega
  · intro i h1 h2
    simp only [List.getElem_take, List.getElem_map, List.getElem_finRange]
    have hi : i < p.val.length := h2
    rw [dif_pos]
    · rfl
    · simpa using hi

/-- C2: decoding a native data packet copies exactly the declared number of
bytes (for declared lengths 0-64 it succeeds and the result holds
precisely bytes 0..size of the native buffer), rejects any declared length
above 64 (the source panics there, modelled as `none`), and never reads
beyond the declared length (packets agreeing on the first `size` bytes
decode identically). -/
theorem datapacket_from_native_spec :
    ∀ p : cec_datapacket,
      (p.size ≤ 64 →
        ∃ d, CecDatapacket.fromNative p = some d ∧ d.val.length = p.size ∧
          ∀ i : Fin 64, (i : Nat) < p.size →
            d.val[(i : Nat)]? = some (p.data i)) ∧
      (64 < p.size → CecDatapacket.fromNative p = none) ∧
      (∀ q : cec_datapacket, p.size = q.size →
        (∀ i : Fin 64, (i : Nat) < p.size → p.data i = q.data i) →
        CecDatapacket.fromNative p = CecDatapacket.fromNative q) := by
  intro p
  refine ⟨?_, ?_, ?_⟩
  · intro h
    refine ⟨⟨((List.finRange 64).map p.data).take p.size,
        le_trans (List.length_take_le _ _) h⟩, ?_, ?_, ?_⟩
    · unfold CecDatapacket.fromNative
      rw [dif_pos h]
    · simp only [List.length_take, List.length_map, List.length_finRange]
      omega
    · intro i hi
      have hlt : (i : Nat) < (((List.finRange 64).map p.data).take p.size).length := by
        simp only [List.length_take, List.length_map, List.length_finRange]
        omega
      rw [List.getElem?_eq_getElem hlt]
      simp only [List.getElem_take, List.getElem_map, List.getElem_finRange]
      rfl
  · intro h
    unfold CecDatapacket.fromNative
    rw [dif_neg (by omega)]
  · intro q hsz hag
    unfold CecDatapacket.fromNative
    by_cases h : p.size ≤ 64
    · rw [dif_pos h, dif_pos (hsz ▸ h)]
      refine congrArg some (Subtype.ext ?_)
      apply List.ext_getElem
      · simp only [List.length_take, List.length_map, List.length_finRange]
        omega
      · intro i h1 h2
        simp only [List.getElem_take, List.getElem_map, List.getElem_finRange]
        have hip : i < p.size := by
          simp only [List.length_take, List.length_map, List.length_finRange] at h1
          omega
        have h64 : i < 64 := by omega
        exact hag ⟨i, h64⟩ hip
    · rw [dif_neg h, dif_neg (by rw [← hsz]; exact h)]

/-- Witness for C2 at concrete packets: a declared length of 2 copies
exactly the two bytes, and a declared length of 100 is rejected. -/
theorem datapacket_from_native_spec_witness :
    (∃ d, CecDatapacket.fromNative
        { data := fun i => if (i : Nat) = 0 then 7 else 9, size := 2 } = some d ∧
      d.val.length = 2 ∧
      ∀ i : Fin 64, (i : Nat) < 2 →
        d.val[(i : Nat)]? =
          some (if (i : Nat) = 0 then 7 else 9)) ∧
    CecDatapacket.fromNative { data := fun _ => 0, size := 100 } = none :=
  ⟨(datapacket_from_native_spec _).1 (by decide),
   (datapacket_from_native_spec _).2.1 (by decide)⟩

/-- C7: for every native command that decodes successfully, the domain
transmit timeout is the zero duration when the native value is negative,
equals the native value in milliseconds when it is non-negative, and is
never negative. -/
theorem command_decode_timeout_clamp :
    ∀ (command : cec_command) (c : CecCommand),
      CecCommand.tryFromNative command = some (Except.ok c) →
      (command.transmit_timeout < 0 → c.transmit_timeout = 0) ∧
      (0 ≤ command.transmit_timeout →
        (c.transmit_timeout : Int) = command.transmit_timeout) ∧
      0 ≤ (c.transmit_timeout : Int) := by
  intro command c h
  unfold CecCommand.tryFromNative at h
  split at h
  · exact absurd h (by simp)
  · split at h
    · exact absurd h (by simp)
    · split at h
      · exact absurd h (by simp)
      · split at h
        · exact Option.noConfusion h
        · have hc := Except.ok.inj (Option.some.inj h)
          subst hc
          refine ⟨?_, ?_, ?_⟩
          · intro hneg
            show (if command.transmit_timeout < 0 then 0
                  else command.transmit_timeout.toNat) = 0
            rw [if_pos hneg]
          · intro hpos
            show ((if command.transmit_timeout < 0 then 0
                   else command.transmit_timeout.toNat : Nat) : Int) =
              command.transmit_timeout
            rw [if_neg (not_lt.mpr hpos)]
            exact Int.toNat_of_nonneg hpos
          · exact Int.natCast_nonneg _

/-- Witness for C7: a native command with transmit timeout -500 decodes
successfully and its timeout is clamped to the zero duration. -/
theorem command_decode_timeout_clamp_witness :
    CecCommand.tryFromNative exampleNativeCommand =
      some (Except.ok exampleDecodedCommand) ∧
    exampleDecodedCommand.transmit_timeout = 0 :=
  ⟨rfl,
   (command_decode_timeout_clamp exampleNativeCommand exampleDecodedCommand
      rfl).1 (by decide)⟩

/-- Round-trip of the mask-based address-set conversion, for every domain
value. -/
theorem logicalAddresses_roundtrip_aux :
    ∀ x : CecLogicalAddresses,
      CecLogicalAddresses.fromNative (CecLogicalAddresses.toNative x) =
        Except.ok x := by
  intro x
  have hp : CecLogicalAddress.from_repr (CecLogicalAddresses.toNative x).primary
      = some x.primary.val := CecLogicalAddress.from_repr_repr_CecLogicalAddress x.primary.val
  have hk : KnownCecLogicalAddress.new x.primary.val = some x.primary :=
    KnownCecLogicalAddress.new_of_ne x.primary.prop
  simp only [CecLogicalAddresses.fromNative, hp, hk]
  refine congrArg Except.ok ?_
  refine congrArg (CecLogicalAddresses.mk x.primary) ?_
  apply Finset.ext
  intro a
  rw [mem_fromNative_addresses]
  constructor
  · rintro ⟨i, hmask, hrepr⟩
    have hmem : ((i : Nat) : Int) ∈ x.addresses.image (fun b => b.val.repr) := by
      by_contra hno
      apply hmask
      show (if ((i : Nat) : Int) ∈ x.addresses.image (fun b => b.val.repr)
            then (1 : Int) else 0) = 0
      rw [if_neg hno]
    rw [hrepr] at hmem
    obtain ⟨b, hb, hbeq⟩ := Finset.mem_image.mp hmem
    have hba : b = a :=
      Subtype.ext (CecLogicalAddress.repr_injective _ _ hbeq)
    rwa [← hba]
  · intro ha
    have hb := registered_repr_bounds a.val a.prop.1 a.prop.2
    refine ⟨⟨a.val.repr.toNat, by omega⟩, ?_, ?_⟩
    · have hcast : ((a.val.repr.toNat : Nat) : Int) = a.val.repr :=
        Int.toNat_of_nonneg hb.1
      show (if ((a.val.repr.toNat : Nat) : Int) ∈
              x.addresses.image (fun b => b.val.repr) then (1 : Int) else 0) ≠ 0
      rw [hcast, if_pos (Finset.mem_image_of_mem _ ha)]
      exact one_ne_zero
    · exact Int.toNat_of_nonneg hb.1

/-- C1: the `CecLogicalAddresses` encode/decode pair round-trips (same
primary, same secondary set) for every value; in particular, for primary
Playbackdevice1 with secondaries {Playbackdevice2, Audiosystem} the
constructed collection encodes to a mask with exactly three non-zero
slots, at indices 4, 5 and 8, and decodes back to the same collection. -/
theorem logical_addresses_round_trip :
    (∀ x : CecLogicalAddresses,
      CecLogicalAddresses.fromNative (CecLogicalAddresses.toNative x) =
        Except.ok x) ∧
    (∃ x, CecLogicalAddresses.withPrimaryAndAddresses
          ⟨CecLogicalAddress.Playbackdevice1, by decide⟩
          {⟨CecLogicalAddress.Playbackdevice2, by decide⟩,
           ⟨CecLogicalAddress.Audiosystem, by decide⟩} = some x ∧
      ((List.finRange 16).filter
          (fun i => (CecLogicalAddresses.toNative x).addresses i != 0)) =
        [4, 5, 8] ∧
      CecLogicalAddresses.fromNative (CecLogicalAddresses.toNative x) =
        Except.ok x) :=
  ⟨logicalAddresses_roundtrip_aux,
   ⟨exampleCollection, by decide, by decide,
    logicalAddresses_roundtrip_aux exampleCollection⟩⟩

/-- For every mask index below 15 there is a known and registered logical
address with that discriminant. -/
theorem CecLogicalAddress.tryFromInt_lt15 :
    ∀ i : Fin 16, (i : Nat) < 15 →
      ∃ c, CecLogicalAddress.tryFromInt ((i : Nat) : Int) = some c ∧
        CecLogicalAddress.repr c = ((i : Nat) : Int) ∧
        c ≠ CecLogicalAddress.Unknown ∧ c ≠ CecLogicalAddress.Unregistered := by
  decide

/-- C10: decoding a native `cec_logical_addresses` succeeds for every mask
content whenever the primary scalar decodes to a known logical address; a
mask slot with index 0-14 is non-zero exactly when the address with that
discriminant is in the decoded secondary set, and the decoded secondary
set never contains Unregistered (a non-zero slot 15 is silently
discarded). -/
theorem mask_decode_spec :
    ∀ (native : cec_logical_addresses) (p : CecLogicalAddress),
      CecLogicalAddress.from_repr native.primary = some p →
      p ≠ CecLogicalAddress.Unknown →
      ∃ r, CecLogicalAddresses.fromNative native = Except.ok r ∧
        r.primary.val = p ∧
        (∀ i : Fin 16, (i : Nat) < 15 →
          (native.addresses i ≠ 0 ↔
            ∃ a ∈ r.addresses, a.val.repr = ((i : Nat) : Int))) ∧
        (∀ a ∈ r.addresses, a.val ≠ CecLogicalAddress.Unregistered) := by
  intro native p hp hk
  refine ⟨⟨⟨p, hk⟩, ((List.finRange 16).filterMap (fun i =>
      if native.addresses i ≠ 0 then
        (CecLogicalAddress.tryFromInt ((i : Nat) : Int)).bind
          KnownAndRegisteredCecLogicalAddress.new
      else none)).toFinset⟩, ?_, rfl, ?_, ?_⟩
  · simp only [CecLogicalAddresses.fromNative, hp,
      KnownCecLogicalAddress.new_of_ne hk]
  · intro i hi
    constructor
    · intro hmask
      obtain ⟨c, hc, hcrepr, hcu, hcr⟩ := CecLogicalAddress.tryFromInt_lt15 i hi
      refine ⟨⟨c, hcu, hcr⟩, ?_, hcrepr⟩
      exact (mem_fromNative_addresses native _).mpr ⟨i, hmask, hcrepr.symm⟩
    · rintro ⟨a, ha, harepr⟩
      obtain ⟨j, hjmask, hjrepr⟩ := (mem_fromNative_addresses native a).mp ha
      have hij : j = i := by
        have : ((j : Nat) : Int) = ((i : Nat) : Int) := by rw [hjrepr, harepr]
        exact Fin.ext (by exact_mod_cast this)
      rwa [hij] at hjmask
  · intro a ha
    exact a.prop.2

/-- Witness for C10 at a concrete mask: primary scalar 4 with non-zero
slots 5 and 15 decodes successfully; slot 5 contributes Audiosystem and
slot 15 is discarded. -/
theorem mask_decode_spec_witness :
    ∃ r, CecLogicalAddresses.fromNative
        { primary := 4,
          addresses := fun i =>
            if (i : Nat) = 5 ∨ (i : Nat) = 15 then 1 else 0 } = Except.ok r ∧
      r.primary.val = CecLogicalAddress.Playbackdevice1 ∧
      (∀ i : Fin 16, (i : Nat) < 15 →
        (({ primary := 4,
            addresses := fun i =>
              if (i : Nat) = 5 ∨ (i : Nat) = 15 then 1 else 0 } :
              cec_logical_addresses).addresses i ≠ 0 ↔
          ∃ a ∈ r.addresses, a.val.repr = ((i : Nat) : Int))) ∧
      (∀ a ∈ r.addresses, a.val ≠ CecLogicalAddress.Unregistered) :=
  mask_decode_spec _ CecLogicalAddress.Playbackdevice1 rfl (by decide)

/-- The events of the port-resolution step: nothing, or the single adapter
scan. -/
theorem resolvePort_events (cfg : OpenCfg) (o : NativeOracle)
    (res : Except CecConnectionResultError (List Nat)) (ev1 : List NativeEvent)
    (h : resolvePortModel cfg o = (res, ev1)) :
    ev1 = [] ∨ ev1 = [NativeEvent.detectAdapters o.detectRet] := by
  unfold resolvePortModel at h
  by_cases hb : cfg.autodetect.getD false = true
  · rw [if_pos hb] at h
    injection h with h1 h2
    right
    exact h2.symm
  · rw [if_neg hb] at h
    cases hp : cfg.port with
    | some bytes =>
      rw [hp] at h
      injection h with h1 h2
      left
      exact h2.symm
    | none =>
      rw [hp] at h
      injection h with h1 h2
      left
      exact h2.symm

/-- The `open` trace contains no `libcec_close` call before teardown. -/
theorem openCore_close (cfg : OpenCfg) (o : NativeOracle) :
    closeCount (openCore cfg o).2 = 0 := by
  unfold openCore closeCount
  cases hi : o.initOk
  · rfl
  · rcases hres : resolvePortModel cfg o with ⟨res, ev1⟩
    rcases res with e | port
    · rcases resolvePort_events cfg o _ _ hres with rfl | rfl <;> rfl
    · cases ho : o.openOk
      · rcases resolvePort_events cfg o _ _ hres with rfl | rfl <;> rfl
      · cases hc : o.callbacksOk <;>
          rcases resolvePort_events cfg o _ _ hres with rfl | rfl <;> rfl

/-- The `open` trace contains no `libcec_destroy` call before teardown. -/
theorem openCore_destroy (cfg : OpenCfg) (o : NativeOracle) :
    destroyCount (openCore cfg o).2 = 0 := by
  unfold openCore destroyCount
  cases hi : o.initOk
  · rfl
  · rcases hres : resolvePortModel cfg o with ⟨res, ev1⟩
    rcases res with e | port
    · rcases resolvePort_events cfg o _ _ hres with rfl | rfl <;> rfl
    · cases ho : o.openOk
      · rcases resolvePort_events cfg o _ _ hres with rfl | rfl <;> rfl
      · cases hc : o.callbacksOk <;>
          rcases resolvePort_events cfg o _ _ hres with rfl | rfl <;> rfl

/-- When `libcec_initialise` succeeds, the `open` trace contains exactly
one successful allocation. -/
theorem openCore_alloc (cfg : OpenCfg) (o : NativeOracle) (h : o.initOk = true) :
    allocCount (openCore cfg o).2 = 1 := by
  unfold openCore allocCount
  cases hi : o.initOk
  · rw [hi] at h
    exact Bool.noConfusion h
  · rcases hres : resolvePortModel cfg o with ⟨res, ev1⟩
    rcases res with e | port
    · rcases resolvePort_events cfg o _ _ hres with rfl | rfl <;> rfl
    · cases ho : o.openOk
      · rcases resolvePort_events cfg o _ _ hres with rfl | rfl <;> rfl
      · cases hc : o.callbacksOk <;>
          rcases resolvePort_events cfg o _ _ hres with rfl | rfl <;> rfl

/-- C3: in every execution in which `libcec_initialise` returns a non-null
handle, the whole connection lifetime performs exactly one allocation,
exactly one `libcec_close` and exactly one `libcec_destroy` (allocations
equal destructions), and the call trace ends with the close-then-destroy
sequence — on the success path as well as on the port-missing,
ffi-nul-error, no-adapter, adapter-open-failed and
callback-registration-failed early returns. -/
theorem open_releases_handle_exactly_once :
    ∀ (cfg : OpenCfg) (o : NativeOracle), o.initOk = true →
      allocCount (openAndRelease cfg o).2 = 1 ∧
      closeCount (openAndRelease cfg o).2 = 1 ∧
      destroyCount (openAndRelease cfg o).2 = 1 ∧
      allocCount (openAndRelease cfg o).2 = destroyCount (openAndRelease cfg o).2 ∧
      EndsWithCloseDestroy (openAndRelease cfg o).2 := by
  intro cfg o h
  have ha := openCore_alloc cfg o h
  have hc := openCore_close cfg o
  have hd := openCore_destroy cfg o
  unfold allocCount at ha
  unfold closeCount at hc
  unfold destroyCount at hd
  refine ⟨?_, ?_, ?_, ?_, ⟨(openCore cfg o).2, rfl⟩⟩
  · show List.countP _ ((openCore cfg o).2 ++ _) = 1
    rw [List.countP_append, ha]
    rfl
  · show List.countP _ ((openCore cfg o).2 ++ _) = 1
    rw [List.countP_append, hc]
    rfl
  · show List.countP _ ((openCore cfg o).2 ++ _) = 1
    rw [List.countP_append, hd]
    rfl
  · show List.countP _ ((openCore cfg o).2 ++ _) =
      List.countP _ ((openCore cfg o).2 ++ _)
    rw [List.countP_append, List.countP_append, ha, hd]
    rfl

/-- Witness for C3 on a concrete configuration and oracle (explicit port,
successful open). -/
theorem open_releases_handle_exactly_once_witness :
    allocCount (openAndRelease ⟨none, some [99]⟩ ⟨true, 0, [], true, true⟩).2 = 1 ∧
    closeCount (openAndRelease ⟨none, some [99]⟩ ⟨true, 0, [], true, true⟩).2 = 1 ∧
    destroyCount (openAndRelease ⟨none, some [99]⟩ ⟨true, 0, [], true, true⟩).2 = 1 ∧
    allocCount (openAndRelease ⟨none, some [99]⟩ ⟨true, 0, [], true, true⟩).2 =
      destroyCount (openAndRelease ⟨none, some [99]⟩ ⟨true, 0, [], true, true⟩).2 ∧
    EndsWithCloseDestroy (openAndRelease ⟨none, some [99]⟩ ⟨true, 0, [], true, true⟩).2 :=
  open_releases_handle_exactly_once _ _ rfl

/-- C4 (code-bug evidence): with autodetect enabled and an adapter scan
that reports zero adapters (`libcec_detect_adapters` returns 0, leaving
the zero-initialised descriptor buffer untouched), `open` does not fail
with the no-adapter error: it proceeds to attempt the transport open with
the port name extracted from the zeroed first descriptor (the empty byte
string) and, when the native open succeeds, returns success.  The
no-adapter error is returned only for a negative scan return value. -/
theorem autodetect_zero_adapters_proceeds :
    (openAndRelease ⟨some true, none⟩ ⟨true, 0, [], true, true⟩).1 =
      Except.ok () ∧
    (openAndRelease ⟨some true, none⟩ ⟨true, 0, [], true, true⟩).2 =
      [NativeEvent.initialise true, NativeEvent.detectAdapters 0,
       NativeEvent.openTransport [] true, NativeEvent.setCallbacks true,
       NativeEvent.close, NativeEvent.destroy] ∧
    (openAndRelease ⟨some true, none⟩ ⟨true, -1, [], true, true⟩).1 =
      Except.error CecConnectionResultError.NoAdapterFound :=
  ⟨rfl, rfl, rfl⟩

end CecRs
